/-
Verification of the movi-transport-agent request-processing pipeline.

This file is a shallow embedding, in Lean 4, of the core of the
backend agent: the six pipeline stage functions (preprocess, classify,
check-consequences, request-confirmation, execute, format), the edge
routing functions, the retry executor, the consequence-analysis tools,
and the pipeline entry point run_movi_agent.  Each definition is a
direct translation of the corresponding Python function in
backend/app/{agent,tools,utils}; source file and function are named in
every doc comment.

Modelling conventions:
* Python dict-shaped pipeline state (AgentState, a TypedDict with
  total=False) becomes a Lean structure; fields that Python code
  distinguishes between "absent/None" and "set" are Option-typed.
  Channels that the code only ever reads with .get(key, False) are
  plain Bool.
* A stage's partial state update (a Python dict of just the keys it
  sets) becomes the structure Update, in which every field is
  Option-wrapped: none = the key is not in the returned dict,
  some v = the key is set to v.  applyUpdate is the engine's merge.
* External effects are explicit parameters: the relational data store
  is the DB structure, LLM completions are oracle arguments
  (Option String, none = the service call raised), database session
  acquisition is a Bool, and a tool invocation is a function from the
  attempt number to an outcome (a raised fault or a returned value).
* Wall-clock fields (execution_duration, retry sleep delays) are not
  modelled; the backoff delay formula is recorded as a pure function.
* Machine integers: Python ints are Int (ids) or Nat (capacities and
  percentages, both non-negative by schema); Python "/" on these
  non-negative ints followed by int() is Nat floor division.
-/
import Mathlib

namespace MoviAgent

/-- A Python value that can sit in an entity slot: the code stores either
an int id or a display-name string there (consequences.py accepts both;
any other runtime type falls through to the resolver returning None,
which these two constructors already cover for every reachable call). -/
inductive PyVal where
  | vint (n : Int)
  | vstr (s : String)
deriving DecidableEq, Repr

/-- Python truthiness of an optional entity value: None, 0 and "" are falsy. -/
def pyTruthy : Option PyVal → Bool
  | none => false
  | some (.vint n) => n != 0
  | some (.vstr s) => s != ""

/-- Python str() of an entity value, as used in f-string interpolation. -/
def pyStr : PyVal → String
  | .vint n => toString n
  | .vstr s => s

/-- Risk levels of consequence analysis: the strings "none", "low", "high"
in consequence_tools.py. -/
inductive Risk where
  | rnone
  | rlow
  | rhigh
deriving DecidableEq, Repr

/-- The string the Python code uses for a risk level. -/
def Risk.str : Risk → String
  | .rnone => "none"
  | .rlow => "low"
  | .rhigh => "high"

/-- Risk level in upper case, as Python risk_level.upper() in the
fallback confirmation message. -/
def Risk.upper : Risk → String
  | .rnone => "NONE"
  | .rlow => "LOW"
  | .rhigh => "HIGH"

/-! ## Data-store model

The relational entities the consequence tools read
(backend/app/models/{daily_trip,vehicle,deployment,route}.py), with only
the columns the embedded code touches. -/

/-- models/vehicle.py: a vehicle row. -/
structure Vehicle where
  vehicle_id : Int
  license_plate : String
  capacity : Nat
deriving DecidableEq, Repr

/-- models/daily_trip.py: a daily trip row; booking_percentage is a
0..100 integer. -/
structure DailyTrip where
  trip_id : Int
  display_name : String
  booking_percentage : Nat
  route_id : Int
deriving DecidableEq, Repr

/-- models/deployment.py: the assignment record linking a trip to a vehicle. -/
structure Deployment where
  trip_id : Int
  vehicle_id : Int
deriving DecidableEq, Repr

/-- models/route.py: a route row.  The name column is
route_display_name; the model defines no route_name attribute (which is
what consequences.py line 88 tries to reference). -/
structure Route where
  route_id : Int
  route_display_name : String
deriving DecidableEq, Repr

/-- The data store visible to the consequence checks. -/
structure DB where
  trips : List DailyTrip
  routes : List Route
  vehicles : List Vehicle
  deployments : List Deployment
deriving DecidableEq, Repr

/-- select(DailyTrip).where(DailyTrip.trip_id == trip_id) followed by
scalar_one_or_none(): first row with that primary key. -/
def DB.findTrip (db : DB) (id : Int) : Option DailyTrip :=
  db.trips.find? (fun t => t.trip_id == id)

/-- select(DailyTrip.trip_id).where(DailyTrip.display_name == name),
scalar_one_or_none(). -/
def DB.findTripByName (db : DB) (name : String) : Option DailyTrip :=
  db.trips.find? (fun t => t.display_name == name)

/-- consequence_tools.py lines 125-130: select(Deployment, Vehicle)
joined on vehicle_id, filtered to the trip, .first(). -/
def DB.deploymentWithVehicle (db : DB) (tripId : Int) :
    Option (Deployment × Vehicle) :=
  ((db.deployments.filter (fun d => d.trip_id == tripId)).filterMap
    (fun d => (db.vehicles.find? (fun v => v.vehicle_id == d.vehicle_id)).map
      (fun v => (d, v)))).head?

/-! Structural character-list models of the Python string operations the
embedded code uses (lower, strip, split, slice, substring test, int()).
They are defined over String.data so that every definition in this file
evaluates inside the kernel. -/

/-- Python str.lower() (the embedded strings are ASCII). -/
def pyLower (s : String) : String :=
  String.mk (s.data.map Char.toLower)

/-- Whether the first list is a prefix of the second. -/
def isPrefixChars : List Char → List Char → Bool
  | [], _ => true
  | _ :: _, [] => false
  | a :: as, b :: bs => a == b && isPrefixChars as bs

/-- Whether needle occurs contiguously inside the list. -/
def isInfixChars (needle : List Char) : List Char → Bool
  | [] => needle.isEmpty
  | c :: rest => isPrefixChars needle (c :: rest) || isInfixChars needle rest

/-- Python "needle in hay" on strings. -/
def strContains (hay needle : String) : Bool :=
  isInfixChars needle.data hay.data

/-- Python str.strip(): drop leading and trailing whitespace. -/
def pyStrip (s : String) : String :=
  String.mk
    (((s.data.reverse.dropWhile Char.isWhitespace).reverse).dropWhile
      Char.isWhitespace)

/-- Python s[:n]. -/
def pyTake (s : String) (n : Nat) : String :=
  String.mk (s.data.take n)

/-- The numeric value of a non-empty all-digit character list. -/
def digitsValAux : List Char → Nat → Option Nat
  | [], acc => some acc
  | c :: rest, acc =>
    if c.isDigit then digitsValAux rest (acc * 10 + (c.toNat - 48)) else none

/-- The numeric value of a digit list; none when empty or non-digit. -/
def digitsVal : List Char → Option Nat
  | [] => none
  | cs => digitsValAux cs 0

/-- Python int(str) on the identifier strings this code passes around:
an optional sign followed by decimal digits (Python also strips
whitespace and accepts digit-group underscores; no such identifier
reaches these calls). -/
def pyInt? (s : String) : Option Int :=
  match s.data with
  | '-' :: rest => (digitsVal rest).map (fun n => -(n : Int))
  | '+' :: rest => (digitsVal rest).map (fun n => (n : Int))
  | cs => (digitsVal cs).map (fun n => (n : Int))

/-- Python str.split(sep) for a non-empty separator, with fuel bounding
the scan by the subject's length. -/
def splitOnCharsAux (sep : List Char) : Nat → List Char → List Char →
    List (List Char)
  | _, [], acc => [acc.reverse]
  | 0, l, acc => [acc.reverse ++ l]
  | fuel + 1, c :: rest, acc =>
    if !sep.isEmpty && isPrefixChars sep (c :: rest) then
      acc.reverse :: splitOnCharsAux sep fuel (List.drop sep.length (c :: rest)) []
    else
      splitOnCharsAux sep fuel rest (c :: acc)

/-- Python str.split(sep) (non-empty separator). -/
def pySplit (s sep : String) : List String :=
  (splitOnCharsAux sep.data s.data.length s.data []).map String.mk

/-! ## Entity identifier resolution (agent/nodes/consequences.py) -/

/-- consequences.py _resolve_trip_id: an int is used directly; a string
is tried as an integer literal, then looked up by exact display_name. -/
def resolve_trip_id (db : DB) (ident : PyVal) : Option Int :=
  match ident with
  | .vint n => some n
  | .vstr s =>
    match pyInt? s with
    | some n => some n
    | none => (db.findTripByName s).map (fun t => t.trip_id)

/-- The message of the AttributeError raised at consequences.py line 88:
the query references Route.route_name, but the Route model
(models/route.py) defines only route_display_name, so the class
attribute access raises before any query is issued. -/
def routeNameAttrErr : String :=
  "type object 'Route' has no attribute 'route_name'"

/-- consequences.py _resolve_route_id: an int is used directly; a string
is tried as an integer literal; the remaining name-lookup path builds
select(Route.route_id).where(Route.route_name == identifier), which
raises AttributeError because the Route model has no route_name column.
Except.error carries the raised exception's text, which the calling
node's outer except turns into a "Consequence checking failed" error. -/
def resolve_route_id (_db : DB) (ident : PyVal) : Except String (Option Int) :=
  match ident with
  | .vint n => .ok (some n)
  | .vstr s =>
    match pyInt? s with
    | some n => .ok (some n)
    | none => .error routeNameAttrErr


/-- Modelled from the spec: the four-step resolver the spec describes for
consequence checking ("integer parse, then exact-name lookup, then
case-insensitive lookup, then substring lookup against the data store").
The repository has no such function on the consequence path (the
case-insensitive and substring steps exist only inside certain tool
bodies, delete_tools.py and create_tools.py); this definition follows the
spec's words so the code's resolver can be compared against it. -/
def resolveTripIdSpec (db : DB) (ident : PyVal) : Option Int :=
  match ident with
  | .vint n => some n
  | .vstr s =>
    match pyInt? s with
    | some n => some n
    | none =>
      match db.findTripByName s with
      | some t => some t.trip_id
      | none =>
        match db.trips.find? (fun t =>
            pyLower t.display_name == pyLower s) with
        | some t => some t.trip_id
        | none =>
          (db.trips.find? (fun t =>
            strContains (pyLower t.display_name) (pyLower s))).map
              (fun t => t.trip_id)

/-! ## Consequence analysis tools (tools/consequence_tools.py) -/

/-- The data dict built by the consequence checkers
(ConsequenceResult in schemas/tool.py); fields a given checker does not
set stay at their absent defaults. -/
structure ConsequenceData where
  risk_level : Risk
  action_type : String
  entity_id : Int
  trip_name : Option String := none
  booking_percentage : Option Nat := none
  has_deployment : Option Bool := none
  consequences : List String := []
  explanation : String := ""
  proceed_with_caution : Bool := false
  affected_bookings : Option Nat := none
  affected_trips : Option Nat := none
deriving DecidableEq, Repr

/-- tools/base.py response shape for the consequence tools:
success flag, data payload, message, error. -/
structure ConsResult where
  success : Bool
  data : Option ConsequenceData := none
  message : String := ""
  error : Option String := none
deriving DecidableEq, Repr

/-- tools/base.py success_response. -/
def success_response (data : ConsequenceData) (message : String) : ConsResult :=
  { success := true, data := some data, message := message }

/-- tools/base.py error_response. -/
def error_response (error : String) (message : String) : ConsResult :=
  { success := false, error := some error, message := message }

/-- consequence_tools.py _check_remove_vehicle_consequences: the core
tribal-knowledge rule.  No deployment: none; deployment and bookings:
high with affected estimate capacity * percentage / 100 (floor);
deployment and no bookings: low. -/
def check_remove_vehicle_consequences (db : DB) (trip_id : Int) : ConsResult :=
  match db.findTrip trip_id with
  | none =>
    error_response ("Trip ID " ++ toString trip_id ++ " not found")
      "Cannot check consequences for non-existent trip"
  | some trip =>
    let deployment_row := db.deploymentWithVehicle trip_id
    let has_deployment := deployment_row.isSome
    let has_bookings := trip.booking_percentage > 0
    let affected : Nat :=
      match deployment_row with
      | some (_, vehicle) =>
        if has_bookings then vehicle.capacity * trip.booking_percentage / 100
        else 0
      | none => 0
    match deployment_row with
    | none =>
      success_response
        { risk_level := .rnone
          action_type := "remove_vehicle"
          entity_id := trip_id
          trip_name := some trip.display_name
          booking_percentage := some trip.booking_percentage
          has_deployment := some has_deployment
          consequences := ["No vehicle currently assigned to this trip"]
          explanation := "Trip '" ++ trip.display_name ++
            "' has no vehicle assigned. No action needed."
          proceed_with_caution := false
          affected_bookings := some affected }
        "Consequence check complete: NONE risk"
    | some (_, vehicle) =>
      if has_bookings then
        success_response
          { risk_level := .rhigh
            action_type := "remove_vehicle"
            entity_id := trip_id
            trip_name := some trip.display_name
            booking_percentage := some trip.booking_percentage
            has_deployment := some has_deployment
            consequences :=
              ["Trip is " ++ toString trip.booking_percentage ++ "% booked",
               "Approximately " ++ toString affected ++
                 " employees will be affected",
               "All bookings will be cancelled",
               "Trip-sheet generation will fail",
               "Employees need to be notified immediately"]
            explanation := "WARNING - CRITICAL: Trip '" ++ trip.display_name ++
              "' is " ++ toString trip.booking_percentage ++
              "% booked. Removing vehicle '" ++ vehicle.license_plate ++
              "' will:\n1. Cancel approximately " ++ toString affected ++
              " employee bookings\n2. Break trip-sheet generation for this route\n" ++
              "3. Require immediate notification to affected employees\n" ++
              "4. May cause operational disruption"
            proceed_with_caution := true
            affected_bookings := some affected }
          "Consequence check complete: HIGH risk"
      else
        success_response
          { risk_level := .rlow
            action_type := "remove_vehicle"
            entity_id := trip_id
            trip_name := some trip.display_name
            booking_percentage := some trip.booking_percentage
            has_deployment := some has_deployment
            consequences :=
              ["Vehicle is assigned but no bookings exist yet",
               "Safe to remove without affecting employees",
               "Trip will need reassignment before accepting bookings"]
            explanation := "Trip '" ++ trip.display_name ++ "' has vehicle '" ++
              vehicle.license_plate ++ "' assigned but no bookings yet (" ++
              toString trip.booking_percentage ++
              "% booked). Safe to remove, but trip will need a vehicle " ++
              "before employees can book."
            proceed_with_caution := false
            affected_bookings := some affected }
          "Consequence check complete: LOW risk"

/-- consequence_tools.py _check_delete_trip_consequences:
bookings > 0 is high, else low. -/
def check_delete_trip_consequences (db : DB) (trip_id : Int) : ConsResult :=
  match db.findTrip trip_id with
  | none =>
    error_response ("Trip ID " ++ toString trip_id ++ " not found")
      "Cannot check consequences for non-existent trip"
  | some trip =>
    if trip.booking_percentage > 0 then
      let expl := "Trip '" ++ trip.display_name ++ "' has " ++
        toString trip.booking_percentage ++
        "% bookings. Deleting will cancel all bookings."
      success_response
        { risk_level := .rhigh, action_type := "delete_trip",
          entity_id := trip_id, consequences := [expl], explanation := expl,
          proceed_with_caution := true }
        "Consequence check complete: HIGH risk"
    else
      let expl := "Trip '" ++ trip.display_name ++
        "' has no bookings. Safe to delete."
      success_response
        { risk_level := .rlow, action_type := "delete_trip",
          entity_id := trip_id, consequences := [expl], explanation := expl,
          proceed_with_caution := false }
        "Consequence check complete: LOW risk"

/-- consequence_tools.py _check_deactivate_route_consequences:
any trip on the route with bookings makes it high, else low. -/
def check_deactivate_route_consequences (db : DB) (route_id : Int) : ConsResult :=
  let withBookings := (db.trips.filter (fun t => t.route_id == route_id)).filter
    (fun t => t.booking_percentage > 0)
  if withBookings.length > 0 then
    let expl := "Route has " ++ toString withBookings.length ++
      " active trips with bookings. Deactivating will affect ongoing operations."
    success_response
      { risk_level := .rhigh, action_type := "deactivate_route",
        entity_id := route_id, consequences := [expl], explanation := expl,
        proceed_with_caution := true, affected_trips := some withBookings.length }
      "Consequence check complete: HIGH risk"
  else
    let expl := "Route has no active trips with bookings. Safe to deactivate."
    success_response
      { risk_level := .rlow, action_type := "deactivate_route",
        entity_id := route_id, consequences := [expl], explanation := expl,
        proceed_with_caution := false, affected_trips := some withBookings.length }
      "Consequence check complete: LOW risk"

/-- consequence_tools.py get_consequences_for_action: dispatch on the
action type; unknown actions report no consequences. -/
def get_consequences_for_action (db : DB) (action_type : String)
    (entity_id : Int) : ConsResult :=
  if action_type == "remove_vehicle" then
    check_remove_vehicle_consequences db entity_id
  else if action_type == "delete_trip" then
    check_delete_trip_consequences db entity_id
  else if action_type == "deactivate_route" then
    check_deactivate_route_consequences db entity_id
  else
    success_response
      { risk_level := .rnone, action_type := action_type,
        entity_id := entity_id, consequences := [],
        explanation := "Action '" ++ action_type ++
          "' has no significant consequences",
        proceed_with_caution := false }
      "No consequences detected"

/-! ## Pipeline state (agent/state.py) -/

/-- The extracted_entities dict: the keys the embedded nodes read
(consequences.py and preprocess.py). -/
structure Entities where
  trip_id : Option PyVal := none
  trip_name : Option String := none
  trip_ids : List PyVal := []
  route_id : Option PyVal := none
  route_name : Option String := none
  vehicle_ids : List String := []
  stop_names : List String := []
  path_names : List String := []
  action_intent : String := "unknown"
deriving DecidableEq, Repr

/-- The processed_input dict produced by the preprocess node
(original text, detected modality, comprehension string, extracted
entities, confidence). -/
structure ProcessedInput where
  original_text : String
  modality : String
  comprehension : String
  extracted_entities : Entities
  confidence : String
deriving DecidableEq, Repr

/-- The tool_params dict: the keys the consequence node reads. -/
structure ToolParams where
  trip_id : Option PyVal := none
  route_id : Option PyVal := none
deriving DecidableEq, Repr

/-- A generic tool return value as the retry executor and the response
formatter see it: every registered tool returns a dict with a success
flag, an optional error, a message and a data payload (tools/base.py). -/
structure ToolData where
  count : Option Nat := none
  idField : Option Int := none
deriving DecidableEq, Repr

/-- A registered tool's returned dict (tools/base.py shape); successFlag
none models a return value without a "success" key, which the retry
executor treats as success. -/
structure ToolRet where
  successFlag : Option Bool := none
  error : Option String := none
  message : String := ""
  data : Option ToolData := none
deriving DecidableEq, Repr

/-- agent/state.py AgentState: the record threaded through the pipeline.
Option fields model TypedDict keys that may be absent or None (the code
reads them with .get(key) and never distinguishes the two); the Bool
fields are only ever read with .get(key, False). -/
structure AgentState where
  user_input : String := ""
  session_id : String := ""
  timestamp : String := ""
  multimodal_present : List String := []
  processed_input : Option ProcessedInput := none
  input_modalities : List String := []
  intent : Option String := none
  action_type : Option String := none
  extracted_entities : Entities := {}
  action_plan : Option String := none
  requires_consequence_check : Bool := false
  tool_name : Option String := none
  tool_params : ToolParams := {}
  consequences : Option ConsequenceData := none
  risk_level : Option Risk := none
  requires_confirmation : Bool := false
  confirmation_message : Option String := none
  user_confirmed : Bool := false
  tool_results : Option ToolRet := none
  execution_success : Option Bool := none
  execution_error : Option String := none
  execution_attempts : Option Nat := none
  response : Option String := none
  response_type : Option String := none
  error : Option String := none
  error_node : Option String := none
  warning : Option String := none
deriving DecidableEq, Repr

/-- A stage's partial state update: each field is none when the stage's
returned dict does not contain that key, and some v when it sets the key
to v (v itself Option-typed where the state channel is nullable). -/
structure Update where
  processed_input : Option (Option ProcessedInput) := none
  input_modalities : Option (List String) := none
  intent : Option (Option String) := none
  action_type : Option (Option String) := none
  extracted_entities : Option Entities := none
  action_plan : Option (Option String) := none
  requires_consequence_check : Option Bool := none
  tool_name : Option (Option String) := none
  tool_params : Option ToolParams := none
  consequences : Option (Option ConsequenceData) := none
  risk_level : Option (Option Risk) := none
  requires_confirmation : Option Bool := none
  confirmation_message : Option (Option String) := none
  user_confirmed : Option Bool := none
  tool_results : Option (Option ToolRet) := none
  execution_success : Option (Option Bool) := none
  execution_error : Option (Option String) := none
  execution_attempts : Option Nat := none
  response : Option (Option String) := none
  response_type : Option (Option String) := none
  error : Option (Option String) := none
  error_node : Option (Option String) := none
  warning : Option (Option String) := none
deriving DecidableEq, Repr

/-- The LangGraph merge of a node's partial update into the running
state: key-by-key overwrite of exactly the keys the update carries. -/
def applyUpdate (s : AgentState) (u : Update) : AgentState :=
  { s with
    processed_input := u.processed_input.getD s.processed_input
    input_modalities := u.input_modalities.getD s.input_modalities
    intent := u.intent.getD s.intent
    action_type := u.action_type.getD s.action_type
    extracted_entities := u.extracted_entities.getD s.extracted_entities
    action_plan := u.action_plan.getD s.action_plan
    requires_consequence_check :=
      u.requires_consequence_check.getD s.requires_consequence_check
    tool_name := u.tool_name.getD s.tool_name
    tool_params := u.tool_params.getD s.tool_params
    consequences := u.consequences.getD s.consequences
    risk_level := u.risk_level.getD s.risk_level
    requires_confirmation := u.requires_confirmation.getD s.requires_confirmation
    confirmation_message := u.confirmation_message.getD s.confirmation_message
    user_confirmed := u.user_confirmed.getD s.user_confirmed
    tool_results := u.tool_results.getD s.tool_results
    execution_success := u.execution_success.getD s.execution_success
    execution_error := u.execution_error.getD s.execution_error
    execution_attempts :=
      (u.execution_attempts.map (fun n => some n)).getD s.execution_attempts
    response := u.response.getD s.response
    response_type := u.response_type.getD s.response_type
    error := u.error.getD s.error
    error_node := u.error_node.getD s.error_node
    warning := u.warning.getD s.warning }

/-- agent/state.py create_initial_state: the state a fresh invocation
starts from (execution_success is initialised to False there). -/
def create_initial_state (user_input session_id now : String)
    (multimodal_present : List String) : AgentState :=
  { user_input := user_input
    session_id := session_id
    timestamp := now
    multimodal_present := multimodal_present
    requires_confirmation := false
    user_confirmed := false
    execution_success := some false
    requires_consequence_check := false }

/-- Python truthiness of the error channel: `if error:` is true for a
non-empty string only (every node writes either None or a non-empty
message). -/
def errTruthy (s : AgentState) : Bool :=
  match s.error with
  | some e => e != ""
  | none => false

/-- Python f-string interpolation of a nullable string (None prints as
"None"). -/
def optStrPy : Option String → String
  | some s => s
  | none => "None"

/-! ## Preprocess stage (agent/nodes/preprocess.py) -/

/-- preprocess.py extract_entities_from_text, the lightweight local
extraction for text-only input: keyword-based action-intent inference
and the known-stop-name scan are translated in full.  The three
regex extractions (vehicle plates, trip display tokens, path names)
are left as empty lists: their output is placed inside
processed_input.extracted_entities, which no other embedded function
reads - it flows only into the classification prompt, and the
classification itself is an oracle argument here. -/
def extract_entities_from_text (text : String) : Entities :=
  let tl := pyLower text
  let known_stops := ["Gavipuram", "Peenya", "Temple", "BTM", "Hebbal",
    "Madiwala", "Jayanagar", "Koramangala", "Electronic City", "Whitefield"]
  let stops := known_stops.filter (fun stop => strContains tl (pyLower stop))
  let action_intent :=
    if strContains tl "remove" || strContains tl "delete" ||
        strContains tl "unassign" then "remove_vehicle"
    else if strContains tl "assign" || strContains tl "add" ||
        strContains tl "deploy" || strContains tl "attach" then "assign_vehicle"
    else if strContains tl "create" || strContains tl "add new" then
      if strContains tl "stop" then "create_stop"
      else if strContains tl "path" then "create_path"
      else if strContains tl "route" then "create_route"
      else "create"
    else if strContains tl "list" || strContains tl "show" ||
        strContains tl "display" || strContains tl "get" then
      if strContains tl "unassigned" && strContains tl "vehicle" then
        "list_unassigned_vehicles"
      else if strContains tl "trip" then "list_trips"
      else if strContains tl "route" then "list_routes"
      else "list"
    else if strContains tl "status" || strContains tl "check" ||
        strContains tl "what" || strContains tl "how many" then "query_status"
    else "unknown"
  { stop_names := stops, action_intent := action_intent }

/-- preprocess.py preprocess_input_node.  gemini is the external
multimodal comprehension call: Except.ok is its parsed result,
Except.error its raised fault message.  A resumed confirmation turn
(user_confirmed with a processed_input already present) returns the
empty update; text-only input never consults gemini. -/
def preprocess_input_node (gemini : Except String ProcessedInput)
    (s : AgentState) : Update :=
  if s.user_confirmed && s.processed_input.isSome then
    {}
  else if s.multimodal_present.isEmpty then
    { processed_input := some (some
        { original_text := s.user_input
          modality := "text"
          comprehension := s.user_input
          extracted_entities := extract_entities_from_text s.user_input
          confidence := "high" })
      input_modalities := some ["text"]
      error := some none }
  else
    match gemini with
    | .ok result =>
      { processed_input := some (some result)
        input_modalities := some ("text" :: s.multimodal_present)
        error := some none }
    | .error msg =>
      { processed_input := some (some
          { original_text := s.user_input
            modality := "mixed"
            comprehension := "Multimodal processing unavailable. Text: " ++
              s.user_input
            extracted_entities := {}
            confidence := "medium" })
        input_modalities := some ("text" :: s.multimodal_present)
        error := some none
        warning := some (some ("Gemini API unavailable: " ++ msg)) }

/-! ## Classify stage (agent/nodes/classify.py) -/

/-- The JSON object the classification model returns, after parsing
(classify.py lines 96-116). -/
structure Classification where
  intent : Option String := none
  action_type : Option String := none
  tool_name : Option String := none
  requires_consequence_check : Bool := false
  extracted_entities : Entities := {}
  action_plan : String := ""
  tool_params : ToolParams := {}
deriving DecidableEq, Repr

/-- Outcome of the classification service call plus JSON parse:
ok, a JSONDecodeError, or any other raised fault. -/
inductive ClassifyOutcome where
  | ok (c : Classification)
  | jsonError (msg : String)
  | fault (msg : String)
deriving DecidableEq, Repr

/-- schemas/tool.py TOOL_METADATA_REGISTRY, reduced to the one field the
classify node reads: requires_consequence_check per tool name. -/
def TOOL_METADATA_REGISTRY : List (String × Bool) :=
  [("get_unassigned_vehicles_count", false),
   ("get_trip_status", false),
   ("list_stops_for_path", false),
   ("list_routes_by_path", false),
   ("assign_vehicle_to_trip", false),
   ("create_stop", false),
   ("create_path", false),
   ("create_route", false),
   ("remove_vehicle_from_trip", true),
   ("get_consequences_for_action", false)]

/-- Registry lookup: some flag when the tool has a metadata entry. -/
def metadataRequiresCheck (name : String) : Option Bool :=
  (TOOL_METADATA_REGISTRY.find? (fun p => p.1 == name)).map Prod.snd

/-- classify.py lines 103-107: the static metadata overrides the
model's requires_consequence_check flag for a truthy tool name with a
registry entry. -/
def classifyRequiresCheckValue (c : Classification) : Bool :=
  match c.tool_name with
  | some tn =>
    if tn != "" then (metadataRequiresCheck tn).getD c.requires_consequence_check
    else c.requires_consequence_check
  | none => c.requires_consequence_check

/-- classify.py classify_intent_node: on a parsed classification the
static metadata overrides the model's requires_consequence_check for a
known tool; parse or service faults become a terminal error with
error_node classify_intent_node. -/
def classify_intent_node (outcome : ClassifyOutcome) (_s : AgentState) : Update :=
  match outcome with
  | .jsonError msg =>
    { error := some (some ("Failed to parse Claude response as JSON: " ++ msg))
      error_node := some (some "classify_intent_node") }
  | .fault msg =>
    { error := some (some ("Classification failed: " ++ msg))
      error_node := some (some "classify_intent_node") }
  | .ok c =>
    let requires_check := classifyRequiresCheckValue c
    { intent := some c.intent
      action_type := some c.action_type
      extracted_entities := some c.extracted_entities
      action_plan := some (some c.action_plan)
      requires_consequence_check := some requires_check
      tool_name := some c.tool_name
      tool_params := some c.tool_params
      error := some none }

/-! ## CheckConsequences stage (agent/nodes/consequences.py) -/

/-- consequences.py check_consequences_node.  dbOk models whether
get_db() yields a session.  The final dispatch tag is always one of
remove_vehicle, delete_trip, deactivate_route, so the source's
unreachable use-entity-as-is resolution arm is not represented. -/
def check_consequences_node (db : DB) (dbOk : Bool) (s : AgentState) : Update :=
  if !s.requires_consequence_check then
    { consequences := some none
      risk_level := some (some .rnone)
      requires_confirmation := some false
      error := some none }
  else
    let es := s.extracted_entities
    let branch : Option (Option PyVal × String) :=
      if s.intent == some "remove_vehicle" || s.action_type == some "delete" then
        let e1 := s.tool_params.trip_id
        let e2 := if pyTruthy e1 then e1 else es.trip_id
        let e3 := if pyTruthy e2 then e2 else es.trip_name.map .vstr
        let e4 := if !(pyTruthy e3) && !es.trip_ids.isEmpty then es.trip_ids.head?
                  else e3
        some (e4, "remove_vehicle")
      else if s.intent == some "delete_trip" then
        let e1 := s.tool_params.trip_id
        let e2 := if pyTruthy e1 then
                    e1
                  else if pyTruthy es.trip_id then es.trip_id
                  else es.trip_name.map .vstr
        let e3 := if !(pyTruthy e2) && !es.trip_ids.isEmpty then es.trip_ids.head?
                  else e2
        some (e3, "delete_trip")
      else if s.intent == some "deactivate_route" then
        let e1 := s.tool_params.route_id
        let e2 := if pyTruthy e1 then
                    e1
                  else if pyTruthy es.route_id then es.route_id
                  else es.route_name.map .vstr
        some (e2, "deactivate_route")
      else none
    match branch with
    | none =>
      { consequences := some none
        risk_level := some (some .rlow)
        requires_confirmation := some false
        error := some (some ("Consequence checking not implemented for intent: " ++
          optStrPy s.intent))
        error_node := some (some "check_consequences_node") }
    | some (entity, consequence_action_type) =>
      if !(pyTruthy entity) then
        { consequences := some none
          risk_level := some (some .rlow)
          requires_confirmation := some false
          error := some (some ("Missing entity_id for consequence checking (intent: " ++
            optStrPy s.intent ++ ")"))
          error_node := some (some "check_consequences_node") }
      else
        match entity with
        | none =>
          -- pyTruthy entity rules this case out; mirror the missing-entity
          -- update so the function stays total.
          { consequences := some none
            risk_level := some (some .rlow)
            requires_confirmation := some false
            error := some (some ("Missing entity_id for consequence checking (intent: " ++
              optStrPy s.intent ++ ")"))
            error_node := some (some "check_consequences_node") }
        | some e =>
          if !dbOk then
            { consequences := some none
              risk_level := some (some .rlow)
              requires_confirmation := some false
              error := some (some "Failed to get database session")
              error_node := some (some "check_consequences_node") }
          else
            let resolvedE : Except String (Option Int) :=
              if consequence_action_type == "remove_vehicle" ||
                  consequence_action_type == "delete_trip" then
                .ok (resolve_trip_id db e)
              else resolve_route_id db e
            match resolvedE with
            | .error msg =>
              -- consequences.py lines 260-267: the node-level except
              -- catches the AttributeError the route resolver raises.
              { consequences := some none
                risk_level := some (some .rlow)
                requires_confirmation := some false
                error := some (some ("Consequence checking failed: " ++ msg))
                error_node := some (some "check_consequences_node") }
            | .ok resolved =>
              let resolvedTruthy :=
                match resolved with
                | some n => n != 0
                | none => false
              if !resolvedTruthy then
                { consequences := some none
                  risk_level := some (some .rlow)
                  requires_confirmation := some false
                  error := some (some ("Could not resolve entity identifier '" ++
                    pyStr e ++ "' to ID"))
                  error_node := some (some "check_consequences_node") }
              else
                match resolved with
                | none =>
                  -- resolvedTruthy rules this case out; mirror the
                  -- unresolved-entity update so the function stays total.
                  { consequences := some none
                    risk_level := some (some .rlow)
                    requires_confirmation := some false
                    error := some (some ("Could not resolve entity identifier '" ++
                      pyStr e ++ "' to ID"))
                    error_node := some (some "check_consequences_node") }
                | some rid =>
                  let cr := get_consequences_for_action db consequence_action_type rid
                  if !cr.success then
                    { consequences := some none
                      risk_level := some (some .rlow)
                      requires_confirmation := some false
                      error := some (some (cr.error.getD "Consequence check failed"))
                      error_node := some (some "check_consequences_node") }
                  else
                    let risk :=
                      match cr.data with
                      | some d => d.risk_level
                      | none => .rnone
                    { consequences := some cr.data
                      risk_level := some (some risk)
                      requires_confirmation := some (risk == .rhigh)
                      error := some none }

/-! ## RequestConfirmation stage (agent/nodes/confirmation.py) -/

/-- Python "sep".join(parts). -/
def joinWith (sep : String) : List String → String
  | [] => ""
  | [x] => x
  | x :: y :: rest => x ++ sep ++ joinWith sep (y :: rest)

/-- confirmation.py lines 111-117 (same cleanup in format.py): when the
message contains a markdown code fence, keep the text before the first
fence, or - if that is blank and fences closed - the text after the
last one. -/
def stripCodeFence (msg : String) : String :=
  if strContains msg "```" then
    let parts := pySplit msg "```"
    let first := pyStrip (parts.headD "")
    if first == "" && parts.length > 2 then pyStrip (parts.getLastD "")
    else first
  else msg

/-- confirmation.py _generate_fallback_confirmation: the deterministic
confirmation template used when the completion service fails or returns
a degenerate message. -/
def generate_fallback_confirmation (s : AgentState) : Update :=
  let intent := s.intent.getD "this action"
  let risk_upper :=
    match s.risk_level with
    | some r => r.upper
    | none => "UNKNOWN"
  let base := ["WARNING: Confirmation Required - " ++ risk_upper ++ " RISK", "",
    "You are about to perform: " ++ intent, ""]
  let parts :=
    match s.consequences with
    | none => base
    | some c =>
      let p1 :=
        if c.explanation != "" then
          base ++ ["Consequences:",
            (if c.explanation.length > 200 then
               pyTake c.explanation 200 ++ "..."
             else c.explanation), ""]
        else base
      let affected := c.affected_bookings.getD 0
      if affected > 0 then
        p1 ++ ["WARNING: This will affect " ++ toString affected ++
          " employee bookings", ""]
      else p1
  let msg := joinWith "\n" (parts ++ ["Do you want to proceed? (yes/no)"])
  { confirmation_message := some (some msg)
    requires_confirmation := some true
    user_confirmed := some false
    error := some none }

/-- confirmation.py request_confirmation_node.  llm is the completion
service call: none models a raised fault (which the code answers with
the fallback template); a returned message is fence-stripped and
replaced by the fallback when empty or under 20 characters.  Every
return path sets user_confirmed to False. -/
def request_confirmation_node (llm : Option String) (s : AgentState) : Update :=
  if !s.requires_confirmation then
    { confirmation_message := some none
      requires_confirmation := some false
      user_confirmed := some false
      error := some none }
  else
    match llm with
    | none => generate_fallback_confirmation s
    | some raw =>
      let msg := stripCodeFence raw
      if msg == "" || msg.length < 20 then generate_fallback_confirmation s
      else
        { confirmation_message := some (some msg)
          requires_confirmation := some true
          user_confirmed := some false
          error := some none }

/-! ## Retry executor (utils/retry.py) -/

/-- A raised Python exception as the retry executor observes it:
its type name (type(e).__name__) and its str(e) text. -/
structure Exc where
  name : String
  msg : String
deriving DecidableEq, Repr

/-- Outcome of invoking the wrapped tool once: a raised fault or a
returned value. -/
inductive Attempt where
  | raises (e : Exc)
  | returns (r : ToolRet)
deriving DecidableEq, Repr

/-- The dict retry_with_backoff returns (total_duration is wall clock
and not modelled). -/
structure RetryResult where
  success : Bool
  result : Option ToolRet
  error : Option String
  attempts : Nat
deriving DecidableEq, Repr

/-- The result retry.py builds when the while loop exits without
having returned (lines 132-140), or - identically - when it never runs. -/
def unexpectedResult (attempts : Nat) : RetryResult :=
  { success := false
    result := none
    error := some ("Unexpected error after " ++ toString attempts ++ " attempts")
    attempts := attempts }

/-- utils/retry.py retry_with_backoff's while loop.  behavior gives the
outcome of the n-th invocation (1-based); retryOn is the membership
test against the retry_on exception list; calls counts actual
invocations of the wrapped tool.  A returned dict whose success flag is
explicitly False is retried like a raised fault; the backoff sleeps are
dropped (pure time).  fuel structurally bounds the loop: called with
fuel = maxAttempts it can only run out when attempts has reached
maxAttempts, where it produces the same unexpected-exit result as the
loop condition itself, so the encoding coincides with the source's
while attempts < max_attempts. -/
def retryAux (behavior : Nat → Attempt) (retryOn : Exc → Bool)
    (maxAttempts : Nat) : Nat → Nat → Nat → RetryResult × Nat
  | 0, attempts, calls => (unexpectedResult attempts, calls)
  | fuel + 1, attempts, calls =>
    if attempts < maxAttempts then
      let a := attempts + 1
      match behavior a with
      | .returns r =>
        if r.successFlag == some false then
          if a < maxAttempts then
            retryAux behavior retryOn maxAttempts fuel a (calls + 1)
          else
            ({ success := false
               result := some r
               error := some ("Tool failed after " ++ toString a ++ " attempts: " ++
                 (r.error.getD "Tool returned failure"))
               attempts := a }, calls + 1)
        else
          ({ success := true, result := some r, error := none, attempts := a },
            calls + 1)
      | .raises e =>
        if retryOn e && a < maxAttempts then
          retryAux behavior retryOn maxAttempts fuel a (calls + 1)
        else
          ({ success := false
             result := none
             error := some ("Tool raised " ++ e.name ++ " after " ++ toString a ++
               " attempts: " ++ e.msg)
             attempts := a }, calls + 1)
    else (unexpectedResult attempts, calls)

/-- utils/retry.py retry_with_backoff: the loop from attempt 0, paired
with the count of actual tool invocations. -/
def retry_with_backoff (behavior : Nat → Attempt) (retryOn : Exc → Bool)
    (maxAttempts : Nat) : RetryResult × Nat :=
  retryAux behavior retryOn maxAttempts maxAttempts 0 0

/-- utils/retry.py line 82 and 117: the exponential-backoff delay before
the retry that follows the given attempt (recorded for reference; the
sleep itself is not modelled). -/
def backoffDelay (baseDelay maxDelay backoffFactor : ℚ) (attempts : Nat) : ℚ :=
  min (baseDelay * backoffFactor ^ (attempts - 1)) maxDelay

/-- The retry configuration execute_action_node passes at its single
call site (execute.py lines 122-128): max_attempts=2, base_delay=1.0,
max_delay=3.0, retry_on=[Exception]; backoff_factor keeps its default
2.0 from retry.py. -/
structure RetryConfig where
  maxAttempts : Nat
  baseDelay : ℚ
  maxDelay : ℚ
  backoffFactor : ℚ
deriving DecidableEq, Repr

/-- The concrete configuration at execute.py's call site. -/
def executeRetryConfig : RetryConfig :=
  { maxAttempts := 2, baseDelay := 1, maxDelay := 3, backoffFactor := 2 }

/-! ## Execute stage (agent/nodes/execute.py) -/

/-- agent/nodes/execute.py execute_action_node.  lookup is
TOOL_REGISTRY.get composed with binding the merged parameters and the
database handle: it yields, per attempt number, the tool invocation's
outcome.  dbOk models get_db() yielding a session.  The pair's second
component counts actual tool invocations.  The source's `except
TypeError` arm around the retry call (execute.py lines 159-171) is
unreachable for tool-raised TypeErrors, because retry_with_backoff is
invoked with retry_on=[Exception] and catches every exception the tool
raises inside its own loop; a total retry executor never raises, so the
arm has no counterpart here. -/
def execute_action_node (lookup : String → Option (Nat → Attempt))
    (dbOk : Bool) (s : AgentState) : Update × Nat :=
  if s.requires_confirmation && !s.user_confirmed then
    ({ tool_results := some none
       execution_success := some (some false)
       execution_error := some (some
         "Action requires user confirmation but confirmation not received")
       error := some (some "Confirmation required")
       error_node := some (some "execute_action_node")
       execution_attempts := some 1 }, 0)
  else
    let tool_name := s.tool_name.getD ""
    if tool_name == "" then
      ({ tool_results := some none
         execution_success := some (some false)
         execution_error := some (some "No tool specified for execution")
         error := some (some "Missing tool_name")
         error_node := some (some "execute_action_node")
         execution_attempts := some 1 }, 0)
    else
      match lookup tool_name with
      | none =>
        ({ tool_results := some none
           execution_success := some (some false)
           execution_error := some (some ("Tool '" ++ tool_name ++
             "' not found in TOOL_REGISTRY"))
           error := some (some ("Unknown tool: " ++ tool_name))
           error_node := some (some "execute_action_node")
           execution_attempts := some 1 }, 0)
      | some behavior =>
        if dbOk then
          let rc := retry_with_backoff behavior (fun _ => true)
            executeRetryConfig.maxAttempts
          let rres := rc.1
          if rres.success then
            ({ tool_results := some rres.result
               execution_success := some (some true)
               execution_error := some none
               error := some none
               execution_attempts := some rres.attempts }, rc.2)
          else
            ({ tool_results := some rres.result
               execution_success := some (some false)
               execution_error := some rres.error
               error := some rres.error
               error_node := some (some "execute_action_node")
               execution_attempts := some rres.attempts }, rc.2)
        else
          ({ tool_results := some none
             execution_success := some (some false)
             execution_error := some (some "Failed to get database session")
             error := some (some "Database session failed")
             error_node := some (some "execute_action_node")
             execution_attempts := some 1 }, 0)

/-! ## FormatResponse stage (agent/nodes/format.py) -/

/-- format.py _format_error_response: translate the lowercased error
text by pattern into a user-facing message; an unmatched error is
echoed verbatim after a generic apology. -/
def format_error_response (error : String) : Update :=
  let el := pyLower error
  let message :=
    if strContains el "confirmation" then
      "This action requires your confirmation before I can proceed. Please confirm or cancel."
    else if strContains el "not found" then
      "I couldn't find what you're looking for. Please check the details and try again."
    else if strContains el "parameter" || strContains el "missing" then
      "I need more information to complete this request. Could you provide more details?"
    else if strContains el "database" then
      "I'm having trouble accessing the data right now. Please try again in a moment."
    else if strContains el "authentication" || strContains el "api" then
      "I'm having trouble connecting to the service. Please try again."
    else
      "I encountered an issue: " ++ error
  { response := some (some message)
    response_type := some (some "error")
    error := some (some error) }

/-- format.py _generate_fallback_success_response: deterministic
formatting of a successful tool result when the completion service is
unavailable or degenerate. -/
def generate_fallback_success_response (tr : ToolRet) : Update :=
  let response :=
    if tr.successFlag != some true then
      "Action completed but with warnings: " ++ tr.message
    else if tr.message != "" then tr.message
    else
      match tr.data with
      | some d =>
        match d.count with
        | some n => "Found " ++ toString n ++ " items."
        | none =>
          match d.idField with
          | some i => "Successfully created with ID: " ++ toString i
          | none => "Action completed successfully."
      | none => "Action completed successfully."
  { response := some (some response)
    response_type := some (some "success")
    error := some none
    tool_results := some (some tr) }

/-- format.py _format_success_response: the completion-service path with
fence cleanup; a fault or a response under 10 characters falls back to
the deterministic formatter. -/
def format_success_response (llm : Option String) (tr : ToolRet) : Update :=
  match llm with
  | none => generate_fallback_success_response tr
  | some raw =>
    let formatted := stripCodeFence raw
    if formatted == "" || formatted.length < 10 then
      generate_fallback_success_response tr
    else
      { response := some (some formatted)
        response_type := some (some "success")
        error := some none
        tool_results := some (some tr) }

/-- format.py format_response_node: error translation first, then the
confirmation hold, then execution failure, then success formatting,
else the informational template. -/
def format_response_node (llm : Option String) (s : AgentState) : Update :=
  if errTruthy s then
    format_error_response (s.error.getD "")
  else if s.requires_confirmation && !s.user_confirmed then
    { response := some (some (s.confirmation_message.getD ""))
      response_type := some (some "confirmation")
      error := some none }
  else if s.execution_success == some false then
    format_error_response (s.execution_error.getD "Unknown error")
  else
    match s.tool_results with
    | some tr => format_success_response llm tr
    | none =>
      { response := some (some ("I understand you want to: " ++
          s.intent.getD "" ++ ". How can I help you with this?"))
        response_type := some (some "info")
        error := some none }

/-! ## Router (agent/edges.py) and engine (agent/graph.py) -/

/-- The six graph nodes. -/
inductive NodeName where
  | preprocess
  | classify
  | check
  | confirm
  | exec
  | format
deriving DecidableEq, Repr

/-- edges.py route_after_classify. -/
def route_after_classify (s : AgentState) : NodeName :=
  if errTruthy s then .format
  else if s.requires_consequence_check then .check
  else .exec

/-- edges.py route_after_consequences. -/
def route_after_consequences (s : AgentState) : NodeName :=
  if errTruthy s then .format
  else if s.user_confirmed then .exec
  else if s.requires_confirmation then .confirm
  else .exec

/-- edges.py route_after_confirmation. -/
def route_after_confirmation (s : AgentState) : NodeName :=
  if errTruthy s then .format
  else if s.user_confirmed then .exec
  else .format

/-- The external collaborators of one pipeline run: the data store, the
tool registry with bound parameters, session acquisition, and the three
completion-service oracles. -/
structure Env where
  db : DB
  lookup : String → Option (Nat → Attempt)
  dbOk : Bool
  gemini : Except String ProcessedInput
  classifyOutcome : ClassifyOutcome
  confirmLLM : Option String
  formatLLM : Option String

/-- One node's partial update at the current state. -/
def runNode (env : Env) (n : NodeName) (s : AgentState) : Update :=
  match n with
  | .preprocess => preprocess_input_node env.gemini s
  | .classify => classify_intent_node env.classifyOutcome s
  | .check => check_consequences_node env.db env.dbOk s
  | .confirm => request_confirmation_node env.confirmLLM s
  | .exec => (execute_action_node env.lookup env.dbOk s).1
  | .format => format_response_node env.formatLLM s

/-- graph.py create_movi_agent_graph's edges: the node the router picks
after the given node's update is merged (none when the graph ends). -/
def nextNode (s : AgentState) : NodeName → Option NodeName
  | .preprocess => some .classify
  | .classify => some (route_after_classify s)
  | .check => some (route_after_consequences s)
  | .confirm => some (route_after_confirmation s)
  | .exec => some .format
  | .format => none

/-- The LangGraph drive loop: run the node, merge its update, follow the
router; the trace records the nodes executed in order.  fuel bounds the
step count (the graph is acyclic with longest path 6). -/
def runFrom (env : Env) : Nat → NodeName → AgentState → AgentState × List NodeName
  | 0, _, s => (s, [])
  | fuel + 1, n, s =>
    let s' := applyUpdate s (runNode env n s)
    match nextNode s' n with
    | none => (s', [n])
    | some n' =>
      let r := runFrom env fuel n' s'
      (r.1, n :: r.2)

/-- graph.py run_movi_agent lines 254-283: the initial state, with the
caller-supplied confirmation flag, and - when a preserved snapshot
arrives with user_confirmed - the full state restore that overwrites
only user_confirmed, session_id, timestamp and requires_confirmation. -/
def initialStateFor (user_input session_id now : String)
    (multimodal_present : List String) (user_confirmed : Bool)
    (preserved : Option AgentState) : AgentState :=
  let s0 := create_initial_state user_input session_id now multimodal_present
  if user_confirmed then
    match preserved with
    | some p =>
      { p with
        user_confirmed := true
        session_id := session_id
        timestamp := now
        requires_confirmation := false }
    | none => { s0 with user_confirmed := true }
  else s0

/-- graph.py run_movi_agent: build the initial state and drive the graph
from preprocess_input; returns the final state and the executed trace.
(The dict run_movi_agent then returns to the API is a field selection of
this final state.) -/
def run_movi_agent (env : Env) (user_input session_id now : String)
    (multimodal_present : List String) (user_confirmed : Bool)
    (preserved : Option AgentState) : AgentState × List NodeName :=
  runFrom env 6 .preprocess
    (initialStateFor user_input session_id now multimodal_present
      user_confirmed preserved)

/-! ## Helper lemmas: which channels each stage's update carries -/

theorem preprocess_user_confirmed_none (g : Except String ProcessedInput)
    (s : AgentState) : (preprocess_input_node g s).user_confirmed = none := by
  unfold preprocess_input_node
  split
  · rfl
  · split
    · rfl
    · cases g <;> rfl

theorem classify_user_confirmed_none (o : ClassifyOutcome) (s : AgentState) :
    (classify_intent_node o s).user_confirmed = none := by
  cases o <;> rfl

theorem check_user_confirmed_none (db : DB) (dbOk : Bool) (s : AgentState) :
    (check_consequences_node db dbOk s).user_confirmed = none := by
  unfold check_consequences_node
  dsimp only
  repeat' split <;> try rfl

theorem confirm_user_confirmed_false (llm : Option String) (s : AgentState) :
    (request_confirmation_node llm s).user_confirmed = some false := by
  unfold request_confirmation_node generate_fallback_confirmation
  dsimp only
  repeat' split <;> try rfl

theorem execute_user_confirmed_none (lookup : String → Option (Nat → Attempt))
    (dbOk : Bool) (s : AgentState) :
    (execute_action_node lookup dbOk s).1.user_confirmed = none := by
  unfold execute_action_node
  dsimp only
  repeat' split <;> try rfl

theorem format_user_confirmed_none (llm : Option String) (s : AgentState) :
    (format_response_node llm s).user_confirmed = none := by
  unfold format_response_node format_error_response format_success_response
    generate_fallback_success_response
  dsimp only
  repeat' split <;> try rfl

theorem runNode_user_confirmed (env : Env) (n : NodeName) (s : AgentState) :
    (runNode env n s).user_confirmed = none ∨
    (runNode env n s).user_confirmed = some false := by
  cases n <;> simp only [runNode]
  · exact Or.inl (preprocess_user_confirmed_none env.gemini s)
  · exact Or.inl (classify_user_confirmed_none env.classifyOutcome s)
  · exact Or.inl (check_user_confirmed_none env.db env.dbOk s)
  · exact Or.inr (confirm_user_confirmed_false env.confirmLLM s)
  · exact Or.inl (execute_user_confirmed_none env.lookup env.dbOk s)
  · exact Or.inl (format_user_confirmed_none env.formatLLM s)

theorem runFrom_user_confirmed_monotone (env : Env) :
    ∀ (fuel : Nat) (n : NodeName) (s : AgentState),
    (runFrom env fuel n s).1.user_confirmed = true → s.user_confirmed = true := by
  intro fuel
  induction fuel with
  | zero => intro n s h; exact h
  | succ k ih =>
    intro n s h
    unfold runFrom at h
    dsimp only at h
    have hstep : (applyUpdate s (runNode env n s)).user_confirmed = true →
        s.user_confirmed = true := by
      intro h2
      rcases runNode_user_confirmed env n s with hu | hu
      · simpa [applyUpdate, hu] using h2
      · simp [applyUpdate, hu] at h2
    rcases hn : nextNode (applyUpdate s (runNode env n s)) n with _ | n'
    · rw [hn] at h
      exact hstep h
    · rw [hn] at h
      exact hstep (ih n' _ h)

theorem check_requires_confirmation_iff_high (db : DB) (dbOk : Bool)
    (s : AgentState) :
    (check_consequences_node db dbOk s).requires_confirmation =
      some ((check_consequences_node db dbOk s).risk_level ==
        some (some Risk.rhigh)) := by
  unfold check_consequences_node
  dsimp only
  repeat' split <;> try rfl

theorem execute_guard_refuses (lookup : String → Option (Nat → Attempt))
    (dbOk : Bool) (s : AgentState) (hreq : s.requires_confirmation = true)
    (hconf : s.user_confirmed = false) :
    (execute_action_node lookup dbOk s).1.execution_success = some (some false) ∧
    (execute_action_node lookup dbOk s).1.execution_error =
      some (some "Action requires user confirmation but confirmation not received") ∧
    (execute_action_node lookup dbOk s).1.error = some (some "Confirmation required") ∧
    (execute_action_node lookup dbOk s).1.error_node =
      some (some "execute_action_node") := by
  simp [execute_action_node, hreq, hconf]

theorem execute_success_needs_confirmation
    (lookup : String → Option (Nat → Attempt)) (dbOk : Bool) (s : AgentState)
    (h : (execute_action_node lookup dbOk s).1.execution_success =
      some (some true)) :
    s.requires_confirmation = false ∨ s.user_confirmed = true := by
  by_cases hg : (s.requires_confirmation && !s.user_confirmed) = true
  · exfalso
    have := (execute_guard_refuses lookup dbOk s
      (by simpa using (Bool.and_eq_true _ _ ▸ hg).1)
      (by
        have := (Bool.and_eq_true _ _ ▸ hg).2
        simpa using this)).1
    rw [this] at h
    simp at h
  · rcases Bool.not_eq_true _ ▸ hg with _
    cases hr : s.requires_confirmation with
    | false => exact Or.inl rfl
    | true =>
      cases hc : s.user_confirmed with
      | true => exact Or.inr rfl
      | false => exact absurd (by simp [hr, hc]) hg

/-- C1: for every state and data store, a check-consequences update that
carries risk_level "high" also carries requires_confirmation = true; an
execute call on a state that requires confirmation without user
confirmation refuses with execution_success = false, a descriptive
execution_error and a terminal error; and execution_success = true is
only ever returned when the state did not require confirmation or the
caller had supplied user_confirmed = true. -/
theorem C1_safety_invariant :
    (∀ (db : DB) (dbOk : Bool) (s : AgentState),
      (check_consequences_node db dbOk s).risk_level = some (some Risk.rhigh) →
      (check_consequences_node db dbOk s).requires_confirmation = some true) ∧
    (∀ (lookup : String → Option (Nat → Attempt)) (dbOk : Bool) (s : AgentState),
      s.requires_confirmation = true → s.user_confirmed = false →
      (execute_action_node lookup dbOk s).1.execution_success = some (some false) ∧
      (execute_action_node lookup dbOk s).1.execution_error =
        some (some "Action requires user confirmation but confirmation not received") ∧
      (execute_action_node lookup dbOk s).1.error = some (some "Confirmation required") ∧
      (execute_action_node lookup dbOk s).1.error_node =
        some (some "execute_action_node")) ∧
    (∀ (lookup : String → Option (Nat → Attempt)) (dbOk : Bool) (s : AgentState),
      (execute_action_node lookup dbOk s).1.execution_success = some (some true) →
      s.requires_confirmation = false ∨ s.user_confirmed = true) := by
  refine ⟨fun db dbOk s h => ?_, execute_guard_refuses,
    execute_success_needs_confirmation⟩
  rw [check_requires_confirmation_iff_high db dbOk s, h]
  rfl

/-- A concrete data store shared by several witnesses: the trip
"Bulk - 00:01" is 25% booked and carries a deployed vehicle of
capacity 60 (the spec's concrete scenario 2). -/
def demoDB : DB where
  trips := [{ trip_id := 1, display_name := "Bulk - 00:01",
              booking_percentage := 25, route_id := 3 }]
  routes := []
  vehicles := [{ vehicle_id := 7, license_plate := "MH-12-3456", capacity := 60 }]
  deployments := [{ trip_id := 1, vehicle_id := 7 }]

/-- A concrete state that requires confirmation but has none. -/
def blockedState : AgentState where
  requires_confirmation := true
  user_confirmed := false
  tool_name := some "remove_vehicle_from_trip"

/-- A concrete state entering the consequence check for the booked trip. -/
def highRiskCheckState : AgentState where
  requires_consequence_check := true
  intent := some "remove_vehicle"
  tool_params := { trip_id := some (.vint 1) }

/-- C1 witness: the guard fires at a concrete blocked state, and the
high-risk consequence update at the concrete booked trip carries
requires_confirmation = true. -/
theorem C1_safety_invariant_witness :
    (execute_action_node (fun _ => none) true
      blockedState).1.execution_success = some (some false) ∧
    (check_consequences_node demoDB true
      highRiskCheckState).requires_confirmation = some true := by
  constructor
  · exact (C1_safety_invariant.2.1 (fun _ => none) true _ rfl rfl).1
  · exact C1_safety_invariant.1 demoDB true highRiskCheckState (by decide)

/-- C10: when the confirmation guard fires, execute_action_node returns
before consulting the tool registry or acquiring a database session:
zero tool invocations are made, tool_results is set to None, the result
does not depend on the registry or the session at all - and yet the
update reports execution_attempts = 1. -/
theorem C10_guard_short_circuit (lookup lookup' : String → Option (Nat → Attempt))
    (dbOk dbOk' : Bool) (s : AgentState)
    (hreq : s.requires_confirmation = true) (hconf : s.user_confirmed = false) :
    (execute_action_node lookup dbOk s).2 = 0 ∧
    (execute_action_node lookup dbOk s).1.tool_results = some none ∧
    (execute_action_node lookup dbOk s).1.execution_attempts = some 1 ∧
    execute_action_node lookup dbOk s = execute_action_node lookup' dbOk' s := by
  simp [execute_action_node, hreq, hconf]

/-- C10 witness: the guard path at a concrete blocked state, with two
different registries and session outcomes. -/
theorem C10_guard_short_circuit_witness :
    (execute_action_node (fun _ => none) true blockedState).2 = 0 ∧
    (execute_action_node (fun _ => none) true blockedState).1.tool_results =
      some none ∧
    (execute_action_node (fun _ => none) true
      blockedState).1.execution_attempts = some 1 ∧
    execute_action_node (fun _ => none) true blockedState =
      execute_action_node (fun _ => some (fun _ =>
        Attempt.returns { successFlag := some true })) false blockedState :=
  C10_guard_short_circuit _ _ true false blockedState rfl rfl

/-- A tool invocation that raises TypeError on every attempt (a
parameter-shape mismatch between the merged parameters and the tool's
signature). -/
def typeErrorTool : Nat → Attempt :=
  fun _ => .raises { name := "TypeError", msg := "unexpected keyword argument" }

/-- A registry carrying only that tool. -/
def c4Lookup : String → Option (Nat → Attempt) :=
  fun n => if n == "remove_vehicle_from_trip" then some typeErrorTool else none

/-- A state about to execute it, with no confirmation pending. -/
def c4State : AgentState where
  tool_name := some "remove_vehicle_from_trip"

/-- C4 counterexample: a tool call that raises TypeError is invoked
twice - the retry executor is configured with retry_on=[Exception], so
the parameter mismatch IS retried - and the failure is reported through
the generic raised-fault message, not through the distinct
parameter-error branch (whose message would begin "Parameter mismatch:"). -/
theorem C4_counterexample :
    (execute_action_node c4Lookup true c4State).2 = 2 ∧
    (execute_action_node c4Lookup true c4State).1.execution_error =
      some (some "Tool raised TypeError after 2 attempts: unexpected keyword argument") ∧
    (execute_action_node c4Lookup true c4State).1.execution_attempts = some 2 := by
  refine ⟨rfl, rfl, rfl⟩

/-- C4 as amended: for any state that passes the confirmation guard and
any tool that raises TypeError on every attempt, the Execute stage
retries the call up to the attempt budget (two invocations) and surfaces
the generic raised-fault error with the attempt count; the distinct
parameter-error report is never produced for a tool-raised TypeError,
because retry_with_backoff is invoked with retry_on=[Exception] and
catches it inside its own loop. -/
theorem C4_type_error_retried (lookup : String → Option (Nat → Attempt))
    (s : AgentState) (tn msg : String)
    (hguard : (s.requires_confirmation && !s.user_confirmed) = false)
    (htn : s.tool_name = some tn) (hne : (tn == "") = false)
    (hlk : lookup tn = some (fun _ =>
      Attempt.raises { name := "TypeError", msg := msg })) :
    (execute_action_node lookup true s).2 = 2 ∧
    (execute_action_node lookup true s).1.execution_error =
      some (some ("Tool raised TypeError after 2 attempts: " ++ msg)) ∧
    (execute_action_node lookup true s).1.execution_attempts = some 2 ∧
    (execute_action_node lookup true s).1.execution_success =
      some (some false) := by
  unfold execute_action_node
  simp only [hguard, Bool.false_eq_true, if_false, htn, Option.getD_some, hne,
    hlk]
  simp [retry_with_backoff, retryAux, executeRetryConfig]
  rfl

/-- C4 witness for the amended theorem, at the concrete TypeError tool. -/
theorem C4_type_error_retried_witness :
    (execute_action_node c4Lookup true c4State).1.execution_success =
      some (some false) ∧
    (execute_action_node c4Lookup true c4State).2 = 2 := by
  have h := C4_type_error_retried c4Lookup c4State "remove_vehicle_from_trip"
    "unexpected keyword argument" rfl rfl rfl rfl
  exact ⟨h.2.2.2, h.1⟩

theorem retryAux_attempts_eq_calls (b : Nat → Attempt) (rOn : Exc → Bool)
    (maxA : Nat) :
    ∀ (fuel attempts : Nat), attempts ≤ maxA →
    ((retryAux b rOn maxA fuel attempts attempts).1.attempts =
      (retryAux b rOn maxA fuel attempts attempts).2 ∧
     (retryAux b rOn maxA fuel attempts attempts).2 ≤ maxA) := by
  intro fuel
  induction fuel with
  | zero =>
    intro attempts h1
    exact ⟨rfl, h1⟩
  | succ k ih =>
    intro attempts h1
    by_cases hlt : attempts < maxA
    · have h2 : attempts + 1 ≤ maxA := hlt
      unfold retryAux
      rw [if_pos hlt]
      dsimp only
      repeat' split
      all_goals first
        | exact ih (attempts + 1) h2
        | exact ⟨rfl, h2⟩
    · unfold retryAux
      rw [if_neg hlt]
      exact ⟨rfl, h1⟩

theorem retry_attempts_eq_calls (b : Nat → Attempt) (rOn : Exc → Bool)
    (maxA : Nat) :
    (retry_with_backoff b rOn maxA).1.attempts =
      (retry_with_backoff b rOn maxA).2 ∧
    (retry_with_backoff b rOn maxA).2 ≤ maxA :=
  retryAux_attempts_eq_calls b rOn maxA maxA 0 (Nat.zero_le _)

theorem retry2_retries_on_raise (b : Nat → Attempt) (rOn : Exc → Bool)
    (e : Exc) (h1 : b 1 = .raises e) (hr : rOn e = true) :
    (retry_with_backoff b rOn 2).2 = 2 := by
  rcases h2 : b 2 with e2 | r2 <;>
    simp [retry_with_backoff, retryAux, h1, hr, h2, apply_ite Prod.snd]

theorem retry2_retries_on_failure_flag (b : Nat → Attempt) (rOn : Exc → Bool)
    (r : ToolRet) (h1 : b 1 = .returns r) (hf : r.successFlag = some false) :
    (retry_with_backoff b rOn 2).2 = 2 := by
  rcases h2 : b 2 with e2 | r2 <;>
    simp [retry_with_backoff, retryAux, h1, hf, h2, apply_ite Prod.snd]

theorem execute_calls_le_two (lookup : String → Option (Nat → Attempt))
    (dbOk : Bool) (s : AgentState) :
    (execute_action_node lookup dbOk s).2 ≤ 2 := by
  unfold execute_action_node
  dsimp only [executeRetryConfig]
  repeat' split
  all_goals simp
  all_goals exact (retry_attempts_eq_calls _ _ 2).2

/-- C5: the retry executor, at the configuration Execute passes
(max_attempts = 2, base delay 1.0, max delay 3.0, backoff factor 2),
never invokes the wrapped tool more than twice; the attempts value it
records equals the actual number of invocations; it retries both on a
raised fault accepted by retry_on and on a returned success = False
flag; Execute as a whole never causes more than two invocations; and on
the tool-execution path Execute stores exactly that invocation count as
execution_attempts. -/
theorem C5_retry_bound :
    (∀ (b : Nat → Attempt) (rOn : Exc → Bool),
      (retry_with_backoff b rOn 2).2 ≤ 2) ∧
    (∀ (b : Nat → Attempt) (rOn : Exc → Bool),
      (retry_with_backoff b rOn 2).1.attempts = (retry_with_backoff b rOn 2).2) ∧
    (∀ (b : Nat → Attempt) (rOn : Exc → Bool) (e : Exc),
      b 1 = .raises e → rOn e = true → (retry_with_backoff b rOn 2).2 = 2) ∧
    (∀ (b : Nat → Attempt) (rOn : Exc → Bool) (r : ToolRet),
      b 1 = .returns r → r.successFlag = some false →
      (retry_with_backoff b rOn 2).2 = 2) ∧
    (∀ (lookup : String → Option (Nat → Attempt)) (dbOk : Bool) (s : AgentState),
      (execute_action_node lookup dbOk s).2 ≤ 2) ∧
    (∀ (lookup : String → Option (Nat → Attempt)) (s : AgentState)
      (tn : String) (behavior : Nat → Attempt),
      (s.requires_confirmation && !s.user_confirmed) = false →
      s.tool_name = some tn → (tn == "") = false → lookup tn = some behavior →
      (execute_action_node lookup true s).1.execution_attempts =
        some ((execute_action_node lookup true s).2)) ∧
    executeRetryConfig.maxAttempts = 2 ∧ executeRetryConfig.baseDelay = 1 ∧
    executeRetryConfig.maxDelay = 3 ∧ executeRetryConfig.backoffFactor = 2 := by
  refine ⟨fun b rOn => (retry_attempts_eq_calls b rOn 2).2,
    fun b rOn => (retry_attempts_eq_calls b rOn 2).1,
    retry2_retries_on_raise, retry2_retries_on_failure_flag,
    execute_calls_le_two, ?_, rfl, rfl, rfl, rfl⟩
  intro lookup s tn behavior hg ht hn hl
  unfold execute_action_node
  simp only [hg, Bool.false_eq_true, if_false, ht, Option.getD_some, hn, hl]
  dsimp only [executeRetryConfig]
  by_cases hs : (retry_with_backoff behavior (fun _ => true) 2).1.success = true
  · rw [if_pos hs]
    exact congrArg some (retry_attempts_eq_calls behavior (fun _ => true) 2).1
  · rw [if_neg hs]
    exact congrArg some (retry_attempts_eq_calls behavior (fun _ => true) 2).1

/-- C5 witness: the hypothesis-bearing conjuncts at the concrete
always-raising tool: two invocations, and Execute stores the count. -/
theorem C5_retry_bound_witness :
    (retry_with_backoff typeErrorTool (fun _ => true) 2).2 = 2 ∧
    (execute_action_node c4Lookup true c4State).1.execution_attempts =
      some ((execute_action_node c4Lookup true c4State).2) :=
  ⟨C5_retry_bound.2.2.1 typeErrorTool (fun _ => true) _ rfl rfl,
   C5_retry_bound.2.2.2.2.2.1 c4Lookup c4State "remove_vehicle_from_trip"
     typeErrorTool rfl rfl rfl rfl⟩

/-- The booked trip of the shared demo store. -/
def demoTrip : DailyTrip where
  trip_id := 1
  display_name := "Bulk - 00:01"
  booking_percentage := 25
  route_id := 3

/-- C3: the remove_vehicle consequence rule.  For a trip present in the
store: no deployment joined to a vehicle gives risk "none"; a deployed
vehicle with booking_percentage = 0 gives risk "low"; a deployed vehicle
with booking_percentage > 0 gives risk "high" with the affected-bookings
estimate floor(capacity * booking_percentage / 100); and at the concrete
store (capacity 60, 25% booked) the estimate is 15. -/
theorem C3_remove_vehicle_risk_rule (db : DB) (tid : Int) (trip : DailyTrip)
    (htrip : db.findTrip tid = some trip) :
    (db.deploymentWithVehicle tid = none →
      ∃ d, (check_remove_vehicle_consequences db tid).data = some d ∧
        d.risk_level = Risk.rnone) ∧
    (∀ (dep : Deployment) (v : Vehicle),
      db.deploymentWithVehicle tid = some (dep, v) →
      trip.booking_percentage = 0 →
      ∃ d, (check_remove_vehicle_consequences db tid).data = some d ∧
        d.risk_level = Risk.rlow) ∧
    (∀ (dep : Deployment) (v : Vehicle),
      db.deploymentWithVehicle tid = some (dep, v) →
      trip.booking_percentage > 0 →
      ∃ d, (check_remove_vehicle_consequences db tid).data = some d ∧
        d.risk_level = Risk.rhigh ∧
        d.affected_bookings = some (v.capacity * trip.booking_percentage / 100)) ∧
    ((check_remove_vehicle_consequences demoDB 1).data.map
      (fun d => (d.risk_level, d.affected_bookings))) =
        some (Risk.rhigh, some 15) := by
  refine ⟨?_, ?_, ?_, rfl⟩
  · intro hdep
    unfold check_remove_vehicle_consequences
    rw [htrip]
    dsimp only
    rw [hdep]
    exact ⟨_, rfl, rfl⟩
  · intro dep v hdep hb
    unfold check_remove_vehicle_consequences
    rw [htrip]
    dsimp only
    rw [hdep]
    dsimp only
    rw [hb]
    exact ⟨_, rfl, rfl⟩
  · intro dep v hdep hb
    unfold check_remove_vehicle_consequences
    rw [htrip]
    dsimp only
    rw [hdep]
    dsimp only
    rw [if_pos hb, if_pos hb]
    exact ⟨_, rfl, rfl, rfl⟩

/-- C3 witness: the general rule applied to the demo store's booked trip
yields risk "high" with 15 affected bookings. -/
theorem C3_remove_vehicle_risk_rule_witness :
    ∃ d, (check_remove_vehicle_consequences demoDB 1).data = some d ∧
      d.risk_level = Risk.rhigh ∧ d.affected_bookings = some 15 :=
  (C3_remove_vehicle_risk_rule demoDB 1 demoTrip rfl).2.2.1
    { trip_id := 1, vehicle_id := 7 }
    { vehicle_id := 7, license_plate := "MH-12-3456", capacity := 60 }
    rfl (by decide)

/-- A concrete state whose entity reference differs from the stored trip
name only in case. -/
def c6State : AgentState where
  requires_consequence_check := true
  intent := some "remove_vehicle"
  tool_params := { trip_id := some (.vstr "bulk - 00:01") }

/-- C6 counterexample: the consequence-path resolver has no
case-insensitive and no substring step.  The identifier
"bulk - 00:01" - which the spec's four-step resolution would resolve to
trip 1 via the case-insensitive lookup - resolves to nothing in the
code, and the consequence check errors out on it. -/
theorem C6_counterexample :
    resolve_trip_id demoDB (.vstr "bulk - 00:01") = none ∧
    resolveTripIdSpec demoDB (.vstr "bulk - 00:01") = some 1 ∧
    (check_consequences_node demoDB true c6State).error =
      some (some "Could not resolve entity identifier 'bulk - 00:01' to ID") := by
  refine ⟨by decide, by decide, by decide⟩

/-- C6 as amended: resolution of a textual trip identifier on the
consequence path attempts, in order, direct integer use, integer parse,
then exact display-name lookup only - there is no case-insensitive and
no substring step there (those exist only inside certain tool bodies) -
and an identifier that resolves through none of these produces a
"Could not resolve entity identifier" error.  A route identifier gets
only direct integer use and integer parse: the exact-name lookup the
code then attempts references Route.route_name, an attribute the Route
model does not define, so every textual non-integer route identifier
raises AttributeError, which the node reports as "Consequence checking
failed: ..." with risk "low" - the route exact-name lookup never
executes. -/
theorem C6_resolution_steps :
    (∀ (db : DB) (n : Int), resolve_trip_id db (.vint n) = some n) ∧
    (∀ (db : DB) (str : String) (n : Int), pyInt? str = some n →
      resolve_trip_id db (.vstr str) = some n) ∧
    (∀ (db : DB) (str : String), pyInt? str = none →
      resolve_trip_id db (.vstr str) =
        (db.findTripByName str).map (fun t => t.trip_id)) ∧
    (∀ (db : DB) (n : Int), resolve_route_id db (.vint n) = .ok (some n)) ∧
    (∀ (db : DB) (str : String) (n : Int), pyInt? str = some n →
      resolve_route_id db (.vstr str) = .ok (some n)) ∧
    (∀ (db : DB) (str : String), pyInt? str = none →
      resolve_route_id db (.vstr str) = .error routeNameAttrErr) ∧
    (∀ (db : DB) (s : AgentState) (str : String),
      s.requires_consequence_check = true →
      s.intent = some "remove_vehicle" →
      s.tool_params = { trip_id := some (.vstr str) } →
      (str == "") = false → pyInt? str = none → db.findTripByName str = none →
      (check_consequences_node db true s).error =
        some (some ("Could not resolve entity identifier '" ++ str ++ "' to ID"))) ∧
    (∀ (db : DB) (s : AgentState) (str : String),
      s.requires_consequence_check = true →
      s.intent = some "deactivate_route" →
      s.action_type = some "write" →
      s.tool_params = { route_id := some (.vstr str) } →
      (str == "") = false → pyInt? str = none →
      (check_consequences_node db true s).error =
        some (some ("Consequence checking failed: " ++ routeNameAttrErr)) ∧
      (check_consequences_node db true s).risk_level = some (some Risk.rlow) ∧
      (check_consequences_node db true s).requires_confirmation =
        some false) := by
  refine ⟨fun db n => rfl, ?_, ?_, fun db n => rfl, ?_, ?_, ?_, ?_⟩
  · intro db str n h
    simp [resolve_trip_id, h]
  · intro db str h
    simp [resolve_trip_id, h, DB.findTripByName]
  · intro db str n h
    simp [resolve_route_id, h]
  · intro db str h
    simp [resolve_route_id, h]
  · intro db s str hreq hint htp hne hparse hname
    have hstr : str ≠ "" := by simpa [beq_eq_false_iff_ne] using hne
    have hname' : List.find? (fun t => t.display_name == str) db.trips = none :=
      hname
    unfold check_consequences_node
    simp only [hreq, hint, htp]
    simp [pyTruthy, hstr, resolve_trip_id, hparse, DB.findTripByName, hname',
      pyStr]
  · intro db s str hreq hint hat htp hne hparse
    have hstr : str ≠ "" := by simpa [beq_eq_false_iff_ne] using hne
    unfold check_consequences_node
    simp only [hreq, hint, hat, htp]
    simp [pyTruthy, hstr, resolve_route_id, hparse]

/-- A concrete state whose route reference is textual, hitting the
broken Route.route_name lookup. -/
def c6RouteState : AgentState where
  requires_consequence_check := true
  intent := some "deactivate_route"
  action_type := some "write"
  tool_params := { route_id := some (.vstr "Path2 - 19:45") }

/-- C6 witness for the amended theorem: the trip-side unresolved error
at the case-mismatched identifier, and the route-side AttributeError
report at a textual route name. -/
theorem C6_resolution_steps_witness :
    (check_consequences_node demoDB true c6State).error =
      some (some "Could not resolve entity identifier 'bulk - 00:01' to ID") ∧
    (check_consequences_node demoDB true c6RouteState).error =
      some (some ("Consequence checking failed: " ++ routeNameAttrErr)) :=
  ⟨C6_resolution_steps.2.2.2.2.2.2.1 demoDB c6State "bulk - 00:01"
    rfl rfl rfl (by decide) (by decide) (by decide),
   (C6_resolution_steps.2.2.2.2.2.2.2 demoDB c6RouteState "Path2 - 19:45"
    rfl rfl rfl rfl (by decide) (by decide)).1⟩

/-- C7 counterexample: an error text matching none of the five patterns
is echoed verbatim into the user-visible response (prefixed with a
generic apology), so raw error text IS shown to the user in that case. -/
theorem C7_counterexample :
    (format_error_response "quux glitch 17").response =
      some (some "I encountered an issue: quux glitch 17") ∧
    strContains "I encountered an issue: quux glitch 17" "quux glitch 17" = true ∧
    (format_error_response "quux glitch 17").response_type =
      some (some "error") := by
  refine ⟨by decide, by decide, by decide⟩

/-- C7 as amended: for any state with a non-empty error string,
FormatResponse delegates to the error translation, which always returns
a non-empty response with response_type "error"; the five pattern
groups, tested in order on the lowercased text, map to five distinct
friendly messages; an error matching none of them is echoed verbatim
prefixed with "I encountered an issue: " - so raw error text can reach
the user in the unmatched case. -/
theorem C7_error_translation :
    (∀ (llm : Option String) (s : AgentState) (e : String),
      s.error = some e → e ≠ "" →
      format_response_node llm s = format_error_response e) ∧
    (∀ e : String, e ≠ "" →
      ∃ m, (format_error_response e).response = some (some m) ∧ m ≠ "" ∧
        (format_error_response e).response_type = some (some "error")) ∧
    (∀ e : String, strContains (pyLower e) "confirmation" = true →
      (format_error_response e).response = some (some
        "This action requires your confirmation before I can proceed. Please confirm or cancel.")) ∧
    (∀ e : String, strContains (pyLower e) "confirmation" = false →
      strContains (pyLower e) "not found" = true →
      (format_error_response e).response = some (some
        "I couldn't find what you're looking for. Please check the details and try again.")) ∧
    (∀ e : String, strContains (pyLower e) "confirmation" = false →
      strContains (pyLower e) "not found" = false →
      (strContains (pyLower e) "parameter" = true ∨
        strContains (pyLower e) "missing" = true) →
      (format_error_response e).response = some (some
        "I need more information to complete this request. Could you provide more details?")) ∧
    (∀ e : String, strContains (pyLower e) "confirmation" = false →
      strContains (pyLower e) "not found" = false →
      strContains (pyLower e) "parameter" = false →
      strContains (pyLower e) "missing" = false →
      strContains (pyLower e) "database" = true →
      (format_error_response e).response = some (some
        "I'm having trouble accessing the data right now. Please try again in a moment.")) ∧
    (∀ e : String, strContains (pyLower e) "confirmation" = false →
      strContains (pyLower e) "not found" = false →
      strContains (pyLower e) "parameter" = false →
      strContains (pyLower e) "missing" = false →
      strContains (pyLower e) "database" = false →
      (strContains (pyLower e) "authentication" = true ∨
        strContains (pyLower e) "api" = true) →
      (format_error_response e).response = some (some
        "I'm having trouble connecting to the service. Please try again.")) ∧
    (∀ e : String, strContains (pyLower e) "confirmation" = false →
      strContains (pyLower e) "not found" = false →
      strContains (pyLower e) "parameter" = false →
      strContains (pyLower e) "missing" = false →
      strContains (pyLower e) "database" = false →
      strContains (pyLower e) "authentication" = false →
      strContains (pyLower e) "api" = false →
      (format_error_response e).response = some (some
        ("I encountered an issue: " ++ e))) ∧
    List.Pairwise (fun a b => a ≠ b)
      ["This action requires your confirmation before I can proceed. Please confirm or cancel.",
       "I couldn't find what you're looking for. Please check the details and try again.",
       "I need more information to complete this request. Could you provide more details?",
       "I'm having trouble accessing the data right now. Please try again in a moment.",
       "I'm having trouble connecting to the service. Please try again."] := by
  refine ⟨?_, ?_, ?_, ?_, ?_, ?_, ?_, ?_, by decide⟩
  · intro llm s e he hne
    unfold format_response_node
    have het : errTruthy s = true := by
      simp [errTruthy, he, hne]
    rw [if_pos het, he]
    rfl
  · intro e hne
    unfold format_error_response
    dsimp only
    repeat' split
    all_goals refine ⟨_, rfl, ?_, rfl⟩
    all_goals try decide
    intro hcontra
    have hlen := congrArg String.length hcontra
    rw [String.length_append] at hlen
    simp at hlen
    exact absurd hlen.1 (by decide)
  · intro e h
    simp [format_error_response, h]
  · intro e h1 h2
    simp [format_error_response, h1, h2]
  · intro e h1 h2 h3
    rcases h3 with h3 | h3 <;> simp [format_error_response, h1, h2, h3]
  · intro e h1 h2 h3 h4 h5
    simp [format_error_response, h1, h2, h3, h4, h5]
  · intro e h1 h2 h3 h4 h5 h6
    rcases h6 with h6 | h6 <;>
      simp [format_error_response, h1, h2, h3, h4, h5, h6]
  · intro e h1 h2 h3 h4 h5 h6 h7
    simp [format_error_response, h1, h2, h3, h4, h5, h6, h7]

/-- C7 witness for the amended theorem: the node-level delegation and
the translation at two concrete errors, one pattern-matched, one not. -/
theorem C7_error_translation_witness :
    format_response_node none
        { error := some "Confirmation required" } =
      format_error_response "Confirmation required" ∧
    (format_error_response "Confirmation required").response = some (some
      "This action requires your confirmation before I can proceed. Please confirm or cancel.") ∧
    (format_error_response "quux").response = some (some
      ("I encountered an issue: " ++ "quux")) :=
  ⟨C7_error_translation.1 none _ "Confirmation required" rfl (by decide),
   C7_error_translation.2.2.1 "Confirmation required" (by decide),
   C7_error_translation.2.2.2.2.2.2.2.1 "quux" (by decide) (by decide)
     (by decide) (by decide) (by decide) (by decide) (by decide)⟩

/-- C9: no stage ever confirms.  Every update any of the six stage
functions can return either omits the user_confirmed key or sets it to
False - request_confirmation_node sets it to False on every path - and
consequently a pipeline run can only end with user_confirmed = true if
the initial state already carried it (the caller-supplied flag). -/
theorem C9_no_stage_confirms :
    (∀ (g : Except String ProcessedInput) (s : AgentState),
      (preprocess_input_node g s).user_confirmed = none) ∧
    (∀ (o : ClassifyOutcome) (s : AgentState),
      (classify_intent_node o s).user_confirmed = none) ∧
    (∀ (db : DB) (dbOk : Bool) (s : AgentState),
      (check_consequences_node db dbOk s).user_confirmed = none) ∧
    (∀ (llm : Option String) (s : AgentState),
      (request_confirmation_node llm s).user_confirmed = some false) ∧
    (∀ (lookup : String → Option (Nat → Attempt)) (dbOk : Bool) (s : AgentState),
      (execute_action_node lookup dbOk s).1.user_confirmed = none) ∧
    (∀ (llm : Option String) (s : AgentState),
      (format_response_node llm s).user_confirmed = none) ∧
    (∀ (env : Env) (fuel : Nat) (n : NodeName) (s : AgentState),
      (runFrom env fuel n s).1.user_confirmed = true → s.user_confirmed = true) :=
  ⟨preprocess_user_confirmed_none, classify_user_confirmed_none,
   check_user_confirmed_none, confirm_user_confirmed_false,
   execute_user_confirmed_none, format_user_confirmed_none,
   fun env => runFrom_user_confirmed_monotone env⟩

/-- The classification the completion service returns for the demo
remove-vehicle request (the metadata registry will override its
requires_consequence_check to true for remove_vehicle_from_trip). -/
def demoClassification : Classification where
  intent := some "remove_vehicle"
  action_type := some "delete"
  tool_name := some "remove_vehicle_from_trip"
  requires_consequence_check := false
  extracted_entities := { trip_ids := [.vstr "Bulk - 00:01"] }
  action_plan := "Remove the vehicle from trip Bulk - 00:01"
  tool_params := { trip_id := some (.vstr "Bulk - 00:01") }

/-- A registry binding the remove tool to a successful invocation. -/
def demoLookup : String → Option (Nat → Attempt) :=
  fun n =>
    if n == "remove_vehicle_from_trip" then
      some (fun _ => .returns
        { successFlag := some true, message := "Vehicle removed" })
    else none

/-- A closed environment for the demo scenario: live store, live
session, completion service down for message generation (the
deterministic fallbacks take over), classification as above. -/
def demoEnv : Env where
  db := demoDB
  lookup := demoLookup
  dbOk := true
  gemini := .error "no multimodal input"
  classifyOutcome := .ok demoClassification
  confirmLLM := none
  formatLLM := none

/-- C9 witness: the engine-level conjunct applied at a concrete state
that already carries the caller's confirmation. -/
theorem C9_no_stage_confirms_witness :
    ({ user_confirmed := true } : AgentState).user_confirmed = true :=
  C9_no_stage_confirms.2.2.2.2.2.2 demoEnv 0 NodeName.preprocess
    { user_confirmed := true } rfl

theorem execute_risk_level_none (lookup : String → Option (Nat → Attempt))
    (dbOk : Bool) (s : AgentState) :
    (execute_action_node lookup dbOk s).1.risk_level = none := by
  unfold execute_action_node
  dsimp only
  repeat' split <;> try rfl

theorem format_risk_level_none (llm : Option String) (s : AgentState) :
    (format_response_node llm s).risk_level = none := by
  unfold format_response_node format_error_response format_success_response
    generate_fallback_success_response
  dsimp only
  repeat' split <;> try rfl

/-- A read-only classification: list unassigned vehicles, no
consequence check. -/
def readClassification : Classification where
  intent := some "list_unassigned_vehicles"
  action_type := some "read"
  tool_name := some "get_unassigned_vehicles_count"
  requires_consequence_check := false

/-- The environment for the safe-read scenario. -/
def readEnv : Env where
  db := demoDB
  lookup := fun n =>
    if n == "get_unassigned_vehicles_count" then
      some (fun _ => .returns
        { successFlag := some true, data := some { count := some 3 } })
    else none
  dbOk := true
  gemini := .error "no multimodal input"
  classifyOutcome := .ok readClassification
  confirmLLM := none
  formatLLM := none

/-- C8 counterexample: in the concrete safe-read run the Router does
send Classify directly to Execute and CheckConsequences never runs -
but the final state's risk_level is unset (None), not the string
"none" the claim asserts. -/
theorem C8_counterexample :
    (run_movi_agent readEnv "How many unassigned vehicles are there?"
      "s2" "t0" [] false none).2 =
      [NodeName.preprocess, NodeName.classify, NodeName.exec,
       NodeName.format] ∧
    (run_movi_agent readEnv "How many unassigned vehicles are there?"
      "s2" "t0" [] false none).1.risk_level = none ∧
    (run_movi_agent readEnv "How many unassigned vehicles are there?"
      "s2" "t0" [] false none).1.risk_level ≠ some Risk.rnone := by
  refine ⟨by decide, by decide, by decide⟩

/-- C8 as amended: whenever classification parses and yields
requires_consequence_check = false, the Router sends Classify directly
to Execute, the CheckConsequences node never runs (its risk logic is
skipped entirely), and the final state's risk_level remains unset
(None) - the value "none" would only be written by the skipped node's
no-op branch. -/
theorem C8_noop_routing (env : Env) (ui sid now : String) (c : Classification)
    (hc : env.classifyOutcome = .ok c)
    (hreq : classifyRequiresCheckValue c = false) :
    (∀ s : AgentState, errTruthy s = false →
      s.requires_consequence_check = false →
      route_after_classify s = NodeName.exec) ∧
    (run_movi_agent env ui sid now [] false none).2 =
      [NodeName.preprocess, NodeName.classify, NodeName.exec,
       NodeName.format] ∧
    NodeName.check ∉ (run_movi_agent env ui sid now [] false none).2 ∧
    (run_movi_agent env ui sid now [] false none).1.risk_level = none := by
  have htrace : (run_movi_agent env ui sid now [] false none).2 =
      [NodeName.preprocess, NodeName.classify, NodeName.exec,
       NodeName.format] ∧
      (run_movi_agent env ui sid now [] false none).1.risk_level = none := by
    unfold run_movi_agent initialStateFor create_initial_state
    simp only [runFrom, runNode, nextNode, hc]
    simp [preprocess_input_node, classify_intent_node, applyUpdate,
      route_after_classify, errTruthy, hreq, execute_risk_level_none,
      format_risk_level_none]
  refine ⟨?_, htrace.1, ?_, htrace.2⟩
  · intro s he hr
    simp [route_after_classify, he, hr]
  · rw [htrace.1]
    decide

/-- C8 witness for the amended theorem, at the concrete safe-read
environment. -/
theorem C8_noop_routing_witness :
    (run_movi_agent readEnv "How many unassigned vehicles are there?"
      "s2" "t0" [] false none).1.risk_level = none :=
  (C8_noop_routing readEnv "How many unassigned vehicles are there?"
    "s2" "t0" readClassification rfl rfl).2.2.2

theorem joinWith_head_length (sep x : String) (xs : List String) :
    x.length ≤ (joinWith sep (x :: xs)).length := by
  cases xs with
  | nil => simp [joinWith]
  | cons y ys =>
    show x.length ≤ (x ++ sep ++ joinWith sep (y :: ys)).length
    rw [String.length_append, String.length_append]
    omega

theorem warning_head_nonempty (ru : String) (t : List String)
    (h : joinWith "\n"
      (("WARNING: Confirmation Required - " ++ ru ++ " RISK") :: t) = "") :
    False := by
  have hle := joinWith_head_length "\n"
    ("WARNING: Confirmation Required - " ++ ru ++ " RISK") t
  rw [h] at hle
  rw [String.length_append, String.length_append] at hle
  have h33 : ("WARNING: Confirmation Required - ").length = 33 := by decide
  have h5 : (" RISK").length = 5 := by decide
  have h0 : ("" : String).length = 0 := by decide
  omega

theorem fallback_confirmation_shape (s : AgentState) :
    ∃ m, generate_fallback_confirmation s =
      { confirmation_message := some (some m)
        requires_confirmation := some true
        user_confirmed := some false
        error := some none } ∧ m ≠ "" := by
  unfold generate_fallback_confirmation
  dsimp only
  rcases s.consequences with _ | c
  · exact ⟨_, rfl, fun h => warning_head_nonempty _ _ h⟩
  · dsimp only
    split <;> split <;>
      exact ⟨_, rfl, fun h => warning_head_nonempty _ _ h⟩

theorem confirm_node_shape (llm : Option String) (s : AgentState)
    (h : s.requires_confirmation = true) :
    ∃ m, request_confirmation_node llm s =
      { confirmation_message := some (some m)
        requires_confirmation := some true
        user_confirmed := some false
        error := some none } ∧ m ≠ "" := by
  unfold request_confirmation_node
  rw [h, if_neg (by simp)]
  rcases llm with _ | raw
  · exact fallback_confirmation_shape s
  · dsimp only
    split
    · exact fallback_confirmation_shape s
    · rename_i hguard
      rw [Bool.or_eq_true, not_or] at hguard
      refine ⟨_, rfl, ?_⟩
      intro hm
      exact hguard.1 (by simp [hm])

/-! Intermediate engine states of a fresh text-only run (the state the
engine holds after each stage's update is merged). -/

/-- The fresh initial state of a first, unconfirmed call. -/
def firstState0 (ui sid now : String) : AgentState :=
  create_initial_state ui sid now []

/-- After Preprocess. -/
def firstState1 (env : Env) (ui sid now : String) : AgentState :=
  applyUpdate (firstState0 ui sid now)
    (runNode env .preprocess (firstState0 ui sid now))

/-- After Classify. -/
def firstState2 (env : Env) (ui sid now : String) : AgentState :=
  applyUpdate (firstState1 env ui sid now)
    (runNode env .classify (firstState1 env ui sid now))

/-- After CheckConsequences. -/
def firstState3 (env : Env) (ui sid now : String) : AgentState :=
  applyUpdate (firstState2 env ui sid now)
    (runNode env .check (firstState2 env ui sid now))

/-- After RequestConfirmation. -/
def firstState4 (env : Env) (ui sid now : String) : AgentState :=
  applyUpdate (firstState3 env ui sid now)
    (runNode env .confirm (firstState3 env ui sid now))

/-- graph.py lines 267-273: the restored initial state of a confirmed
resumption - the preserved snapshot with exactly user_confirmed,
session_id, timestamp and requires_confirmation overwritten. -/
def resumeInitial (sid2 now2 : String) (p : AgentState) : AgentState :=
  { p with
    user_confirmed := true
    session_id := sid2
    timestamp := now2
    requires_confirmation := false }

/-- The resumed run's state after Classify (Preprocess returns the
empty update on a resumed turn). -/
def resumeState2 (env : Env) (sid2 now2 : String) (p : AgentState) : AgentState :=
  applyUpdate (resumeInitial sid2 now2 p)
    (runNode env .classify (resumeInitial sid2 now2 p))

/-- The resumed run's state after CheckConsequences. -/
def resumeState3 (env : Env) (sid2 now2 : String) (p : AgentState) : AgentState :=
  applyUpdate (resumeState2 env sid2 now2 p)
    (runNode env .check (resumeState2 env sid2 now2 p))

theorem applyUpdate_empty (s : AgentState) : applyUpdate s {} = s := rfl

/-- C2: the confirmation round trip.  (1) A first unconfirmed call in a
high-risk scenario (classification parses, the metadata requires a
consequence check, and the check yields no error and demands
confirmation) traverses Preprocess, Classify, CheckConsequences,
RequestConfirmation, FormatResponse and ends with response_type
"confirmation", a non-empty confirmation_message, and that message as
the response.  (2) Resuming with user_confirmed = true and a preserved
snapshot starts from exactly that snapshot with only user_confirmed,
session_id, timestamp and requires_confirmation = false overwritten.
(3) The resumed run (preprocessing skipped via the restored
processed_input, classification parsed, consequence re-check clean)
reaches the Execute stage and never visits RequestConfirmation. -/
theorem C2_confirmation_round_trip :
    (∀ (env : Env) (ui sid now : String) (c : Classification),
      env.classifyOutcome = .ok c →
      classifyRequiresCheckValue c = true →
      (check_consequences_node env.db env.dbOk
        (firstState2 env ui sid now)).error = some none →
      (check_consequences_node env.db env.dbOk
        (firstState2 env ui sid now)).requires_confirmation = some true →
      (run_movi_agent env ui sid now [] false none).2 =
        [NodeName.preprocess, NodeName.classify, NodeName.check,
         NodeName.confirm, NodeName.format] ∧
      (run_movi_agent env ui sid now [] false none).1.response_type =
        some "confirmation" ∧
      ∃ m, (run_movi_agent env ui sid now [] false none).1.confirmation_message =
          some m ∧
        (run_movi_agent env ui sid now [] false none).1.response = some m ∧
        m ≠ "") ∧
    (∀ (ui2 sid2 now2 : String) (mm2 : List String) (p : AgentState),
      initialStateFor ui2 sid2 now2 mm2 true (some p) =
        resumeInitial sid2 now2 p ∧
      (resumeInitial sid2 now2 p).user_confirmed = true ∧
      (resumeInitial sid2 now2 p).session_id = sid2 ∧
      (resumeInitial sid2 now2 p).timestamp = now2 ∧
      (resumeInitial sid2 now2 p).requires_confirmation = false ∧
      (resumeInitial sid2 now2 p).user_input = p.user_input ∧
      (resumeInitial sid2 now2 p).processed_input = p.processed_input ∧
      (resumeInitial sid2 now2 p).intent = p.intent ∧
      (resumeInitial sid2 now2 p).action_type = p.action_type ∧
      (resumeInitial sid2 now2 p).extracted_entities = p.extracted_entities ∧
      (resumeInitial sid2 now2 p).tool_name = p.tool_name ∧
      (resumeInitial sid2 now2 p).tool_params = p.tool_params ∧
      (resumeInitial sid2 now2 p).consequences = p.consequences ∧
      (resumeInitial sid2 now2 p).risk_level = p.risk_level ∧
      (resumeInitial sid2 now2 p).confirmation_message =
        p.confirmation_message ∧
      (resumeInitial sid2 now2 p).user_confirmed = true) ∧
    (∀ (env2 : Env) (ui2 sid2 now2 : String) (mm2 : List String)
      (c2 : Classification) (p : AgentState),
      env2.classifyOutcome = .ok c2 →
      classifyRequiresCheckValue c2 = true →
      p.processed_input.isSome = true →
      (check_consequences_node env2.db env2.dbOk
        (resumeState2 env2 sid2 now2 p)).error = some none →
      (run_movi_agent env2 ui2 sid2 now2 mm2 true (some p)).2 =
        [NodeName.preprocess, NodeName.classify, NodeName.check,
         NodeName.exec, NodeName.format] ∧
      NodeName.exec ∈ (run_movi_agent env2 ui2 sid2 now2 mm2 true (some p)).2 ∧
      NodeName.confirm ∉
        (run_movi_agent env2 ui2 sid2 now2 mm2 true (some p)).2) := by
  refine ⟨?_, ?_, ?_⟩
  · intro env ui sid now c hc hreq hchk hhigh
    -- route decisions
    have hu2e : (runNode env NodeName.classify
        (firstState1 env ui sid now)).error = some none := by
      show (classify_intent_node env.classifyOutcome
        (firstState1 env ui sid now)).error = some none
      rw [hc]
      rfl
    have hu2r : (runNode env NodeName.classify
        (firstState1 env ui sid now)).requires_consequence_check =
        some (classifyRequiresCheckValue c) := by
      show (classify_intent_node env.classifyOutcome
        (firstState1 env ui sid now)).requires_consequence_check =
        some (classifyRequiresCheckValue c)
      rw [hc]
      rfl
    have hroute2 : route_after_classify (firstState2 env ui sid now) =
        NodeName.check := by
      unfold route_after_classify
      have h1 : errTruthy (firstState2 env ui sid now) = false := by
        unfold firstState2
        simp [applyUpdate, errTruthy, hu2e]
      have h2 : (firstState2 env ui sid now).requires_consequence_check = true := by
        unfold firstState2
        simp [applyUpdate, hu2r, hreq]
      simp [h1, h2]
    have hu3e : (runNode env NodeName.check
        (firstState2 env ui sid now)).error = some none := hchk
    have hu3r : (runNode env NodeName.check
        (firstState2 env ui sid now)).requires_confirmation = some true := hhigh
    have herr3 : errTruthy (firstState3 env ui sid now) = false := by
      unfold firstState3
      simp [applyUpdate, errTruthy, hu3e]
    have huc3 : (firstState3 env ui sid now).user_confirmed = false := by
      unfold firstState3 firstState2 firstState1 firstState0
      simp [applyUpdate, runNode, check_user_confirmed_none,
        classify_user_confirmed_none, preprocess_user_confirmed_none,
        create_initial_state]
    have hrc3 : (firstState3 env ui sid now).requires_confirmation = true := by
      unfold firstState3
      simp [applyUpdate, hu3r]
    have hroute3 : route_after_consequences (firstState3 env ui sid now) =
        NodeName.confirm := by
      simp [route_after_consequences, herr3, huc3, hrc3]
    obtain ⟨m, hcm, hm⟩ :=
      confirm_node_shape env.confirmLLM (firstState3 env ui sid now) hrc3
    have hcm' : runNode env NodeName.confirm (firstState3 env ui sid now) =
        { confirmation_message := some (some m)
          requires_confirmation := some true
          user_confirmed := some false
          error := some none } := hcm
    have herr4 : errTruthy (firstState4 env ui sid now) = false := by
      unfold firstState4
      simp [applyUpdate, errTruthy, hcm']
    have huc4 : (firstState4 env ui sid now).user_confirmed = false := by
      unfold firstState4
      simp [applyUpdate, hcm']
    have hrc4 : (firstState4 env ui sid now).requires_confirmation = true := by
      unfold firstState4
      simp [applyUpdate, hcm']
    have hcmsg4 : (firstState4 env ui sid now).confirmation_message = some m := by
      unfold firstState4
      simp [applyUpdate, hcm']
    have hroute4 : route_after_confirmation (firstState4 env ui sid now) =
        NodeName.format := by
      simp [route_after_confirmation, herr4, huc4]
    have hu5 : runNode env NodeName.format (firstState4 env ui sid now) =
        { response := some (some m)
          response_type := some (some "confirmation")
          error := some none } := by
      show format_response_node env.formatLLM _ = _
      unfold format_response_node
      rw [herr4]
      simp [hrc4, huc4, hcmsg4]
    -- assemble the run
    have h2f : runFrom env 2 NodeName.format (firstState4 env ui sid now) =
        (applyUpdate (firstState4 env ui sid now)
          (runNode env NodeName.format (firstState4 env ui sid now)),
         [NodeName.format]) := rfl
    have h3c : runFrom env 3 NodeName.confirm (firstState3 env ui sid now) =
        ((runFrom env 2 NodeName.format (firstState4 env ui sid now)).1,
         NodeName.confirm ::
           (runFrom env 2 NodeName.format (firstState4 env ui sid now)).2) := by
      have e : runFrom env 3 NodeName.confirm (firstState3 env ui sid now) =
          ((runFrom env 2 (route_after_confirmation (firstState4 env ui sid now))
             (firstState4 env ui sid now)).1,
           NodeName.confirm ::
             (runFrom env 2 (route_after_confirmation (firstState4 env ui sid now))
               (firstState4 env ui sid now)).2) := rfl
      rw [e, hroute4]
    have h4k : runFrom env 4 NodeName.check (firstState2 env ui sid now) =
        ((runFrom env 3 NodeName.confirm (firstState3 env ui sid now)).1,
         NodeName.check ::
           (runFrom env 3 NodeName.confirm (firstState3 env ui sid now)).2) := by
      have e : runFrom env 4 NodeName.check (firstState2 env ui sid now) =
          ((runFrom env 3 (route_after_consequences (firstState3 env ui sid now))
             (firstState3 env ui sid now)).1,
           NodeName.check ::
             (runFrom env 3 (route_after_consequences (firstState3 env ui sid now))
               (firstState3 env ui sid now)).2) := rfl
      rw [e, hroute3]
    have h5c : runFrom env 5 NodeName.classify (firstState1 env ui sid now) =
        ((runFrom env 4 NodeName.check (firstState2 env ui sid now)).1,
         NodeName.classify ::
           (runFrom env 4 NodeName.check (firstState2 env ui sid now)).2) := by
      have e : runFrom env 5 NodeName.classify (firstState1 env ui sid now) =
          ((runFrom env 4 (route_after_classify (firstState2 env ui sid now))
             (firstState2 env ui sid now)).1,
           NodeName.classify ::
             (runFrom env 4 (route_after_classify (firstState2 env ui sid now))
               (firstState2 env ui sid now)).2) := rfl
      rw [e, hroute2]
    have htot : run_movi_agent env ui sid now [] false none =
        (applyUpdate (firstState4 env ui sid now)
          (runNode env NodeName.format (firstState4 env ui sid now)),
         [NodeName.preprocess, NodeName.classify, NodeName.check,
          NodeName.confirm, NodeName.format]) := by
      have e0 : run_movi_agent env ui sid now [] false none =
          ((runFrom env 5 NodeName.classify (firstState1 env ui sid now)).1,
           NodeName.preprocess ::
             (runFrom env 5 NodeName.classify (firstState1 env ui sid now)).2) :=
        rfl
      rw [e0, h5c, h4k, h3c, h2f]
    rw [htot]
    refine ⟨rfl, ?_, m, ?_, ?_, hm⟩
    · simp [applyUpdate, hu5]
    · simp [applyUpdate, hu5, hcmsg4]
    · simp [applyUpdate, hu5]
  · intro ui2 sid2 now2 mm2 p
    exact ⟨rfl, rfl, rfl, rfl, rfl, rfl, rfl, rfl, rfl, rfl, rfl, rfl, rfl,
      rfl, rfl, rfl⟩
  · intro env2 ui2 sid2 now2 mm2 c2 p hc2 hreq2 hp herr2
    have hpre : runNode env2 NodeName.preprocess (resumeInitial sid2 now2 p) =
        {} := by
      show preprocess_input_node env2.gemini _ = {}
      unfold preprocess_input_node
      rw [if_pos]
      show ((resumeInitial sid2 now2 p).user_confirmed &&
        (resumeInitial sid2 now2 p).processed_input.isSome) = true
      show (true && p.processed_input.isSome) = true
      simp [hp]
    have hstep1 : applyUpdate (resumeInitial sid2 now2 p)
        (runNode env2 NodeName.preprocess (resumeInitial sid2 now2 p)) =
        resumeInitial sid2 now2 p := by
      rw [hpre]
      exact applyUpdate_empty _
    have hu2e : (runNode env2 NodeName.classify
        (resumeInitial sid2 now2 p)).error = some none := by
      show (classify_intent_node env2.classifyOutcome
        (resumeInitial sid2 now2 p)).error = some none
      rw [hc2]
      rfl
    have hu2r : (runNode env2 NodeName.classify
        (resumeInitial sid2 now2 p)).requires_consequence_check =
        some (classifyRequiresCheckValue c2) := by
      show (classify_intent_node env2.classifyOutcome
        (resumeInitial sid2 now2 p)).requires_consequence_check =
        some (classifyRequiresCheckValue c2)
      rw [hc2]
      rfl
    have hroute2 : route_after_classify (resumeState2 env2 sid2 now2 p) =
        NodeName.check := by
      unfold route_after_classify
      have h1 : errTruthy (resumeState2 env2 sid2 now2 p) = false := by
        unfold resumeState2
        simp [applyUpdate, errTruthy, hu2e]
      have h2 : (resumeState2 env2 sid2 now2 p).requires_consequence_check =
          true := by
        unfold resumeState2
        simp [applyUpdate, hu2r, hreq2]
      simp [h1, h2]
    have herr3 : errTruthy (resumeState3 env2 sid2 now2 p) = false := by
      unfold resumeState3
      have h1 : (runNode env2 NodeName.check
          (resumeState2 env2 sid2 now2 p)).error = some none := herr2
      simp [applyUpdate, errTruthy, h1]
    have huc3 : (resumeState3 env2 sid2 now2 p).user_confirmed = true := by
      unfold resumeState3 resumeState2
      simp [applyUpdate, runNode, check_user_confirmed_none,
        classify_user_confirmed_none, resumeInitial]
    have hroute3 : route_after_consequences (resumeState3 env2 sid2 now2 p) =
        NodeName.exec := by
      simp [route_after_consequences, herr3, huc3]
    -- assemble the run
    have e0 : run_movi_agent env2 ui2 sid2 now2 mm2 true (some p) =
        ((runFrom env2 5 NodeName.classify
           (applyUpdate (resumeInitial sid2 now2 p)
             (runNode env2 NodeName.preprocess (resumeInitial sid2 now2 p)))).1,
         NodeName.preprocess ::
           (runFrom env2 5 NodeName.classify
             (applyUpdate (resumeInitial sid2 now2 p)
               (runNode env2 NodeName.preprocess
                 (resumeInitial sid2 now2 p)))).2) := rfl
    rw [e0, hstep1]
    have h5c : runFrom env2 5 NodeName.classify (resumeInitial sid2 now2 p) =
        ((runFrom env2 4 NodeName.check (resumeState2 env2 sid2 now2 p)).1,
         NodeName.classify ::
           (runFrom env2 4 NodeName.check (resumeState2 env2 sid2 now2 p)).2) := by
      have e : runFrom env2 5 NodeName.classify (resumeInitial sid2 now2 p) =
          ((runFrom env2 4 (route_after_classify (resumeState2 env2 sid2 now2 p))
             (resumeState2 env2 sid2 now2 p)).1,
           NodeName.classify ::
             (runFrom env2 4 (route_after_classify (resumeState2 env2 sid2 now2 p))
               (resumeState2 env2 sid2 now2 p)).2) := rfl
      rw [e, hroute2]
    have h4k : runFrom env2 4 NodeName.check (resumeState2 env2 sid2 now2 p) =
        ((runFrom env2 3 NodeName.exec (resumeState3 env2 sid2 now2 p)).1,
         NodeName.check ::
           (runFrom env2 3 NodeName.exec (resumeState3 env2 sid2 now2 p)).2) := by
      have e : runFrom env2 4 NodeName.check (resumeState2 env2 sid2 now2 p) =
          ((runFrom env2 3 (route_after_consequences (resumeState3 env2 sid2 now2 p))
             (resumeState3 env2 sid2 now2 p)).1,
           NodeName.check ::
             (runFrom env2 3 (route_after_consequences (resumeState3 env2 sid2 now2 p))
               (resumeState3 env2 sid2 now2 p)).2) := rfl
      rw [e, hroute3]
    have h3x : (runFrom env2 3 NodeName.exec (resumeState3 env2 sid2 now2 p)).2 =
        [NodeName.exec, NodeName.format] := rfl
    rw [h5c, h4k]
    refine ⟨?_, ?_, ?_⟩
    · simp [h3x]
    · simp [h3x]
    · simp [h3x]



/-- C2 witness: the concrete round trip at the demo scenario - the
first call ends asking for confirmation; resuming with the preserved
final state and user_confirmed = true reaches Execute and never visits
RequestConfirmation. -/
theorem C2_confirmation_round_trip_witness :
    (run_movi_agent demoEnv "Remove vehicle from Bulk - 00:01" "s1" "t0"
      [] false none).1.response_type = some "confirmation" ∧
    NodeName.exec ∈ (run_movi_agent demoEnv "yes" "s1" "t1" [] true
      (some (run_movi_agent demoEnv "Remove vehicle from Bulk - 00:01"
        "s1" "t0" [] false none).1)).2 ∧
    NodeName.confirm ∉ (run_movi_agent demoEnv "yes" "s1" "t1" [] true
      (some (run_movi_agent demoEnv "Remove vehicle from Bulk - 00:01"
        "s1" "t0" [] false none).1)).2 :=
  ⟨(C2_confirmation_round_trip.1 demoEnv "Remove vehicle from Bulk - 00:01"
      "s1" "t0" demoClassification rfl (by decide) (by decide) (by decide)).2.1,
   (C2_confirmation_round_trip.2.2 demoEnv "yes" "s1" "t1" []
      demoClassification _ rfl (by decide) (by decide) (by decide)).2.1,
   (C2_confirmation_round_trip.2.2 demoEnv "yes" "s1" "t1" []
      demoClassification _ rfl (by decide) (by decide) (by decide)).2.2⟩

end MoviAgent
